import Mathlib

/-!
Verification of the Order Fulfillment & Inventory Consistency Engine of the
warungin-backend repository (Go).  The Go handlers in
`internal/inventory/handler.go`, `internal/product/handler.go` and
`internal/transaction/handler.go` are shallowly embedded: the relational
store becomes an explicit `DB` value, GORM queries become list lookups,
`float64` money and fractional quantities become `ℚ`, Go `int` becomes `ℤ`,
and the `Begin`/`Rollback`/`Commit` unit of work becomes a transaction
state that either commits a new `DB` or leaves the original untouched.
Statement failures of the store are injected through an explicit oracle;
a failed statement aborts the enclosing database transaction (PostgreSQL
semantics, the driver used by the repository), so later statements in the
same unit fail as well.
-/

namespace Warungin

/-- `database.Product` (pkg/database/models.go): the fields the engine reads.
`stockQty` is a Go `int`, hence `ℤ`; money fields are `float64`, embedded as `ℚ`. -/
structure Product where
  id : Nat
  tenantId : Nat
  price : ℚ
  taxRate : ℚ
  stockQty : ℤ
  useMaterialStock : Bool
deriving Repr, DecidableEq

/-- `database.RawMaterial`: fractional stock. -/
structure RawMaterial where
  id : Nat
  stockQty : ℚ
deriving Repr, DecidableEq

/-- `database.ProductMaterial`: a recipe edge linking a product to a material. -/
structure ProductMaterial where
  productId : Nat
  materialId : Nat
  quantityUsed : ℚ
  conversionRate : ℚ
deriving Repr, DecidableEq

/-- `database.TransactionItem`: immutable child row of a transaction. -/
structure TransactionItem where
  productId : Nat
  quantity : ℤ
  unitPrice : ℚ
  subtotal : ℚ
deriving Repr, DecidableEq

/-- `database.Transaction` header.  `createdDay` is the calendar-day rendering of
`createdAt` used by the `DATE(created_at) = ?` filter; `createdAt` is the
`UnixNano` timestamp. -/
structure Transaction where
  id : Nat
  tenantId : Nat
  invoiceNumber : String
  orderNumber : ℤ
  items : List TransactionItem
  subtotal : ℚ
  discount : ℚ
  tax : ℚ
  total : ℚ
  status : String
  paymentMethod : String
  createdAt : ℤ
  createdDay : String
deriving Repr, DecidableEq

/-- The typed form of the `old_values` JSON snapshot written by `Void`. -/
structure AuditSnapshot where
  status : String
  total : ℚ
  subtotal : ℚ
  discount : ℚ
  tax : ℚ
  items : List TransactionItem
deriving Repr, DecidableEq

/-- `database.TransactionAuditLog`: the JSON blobs are embedded as typed
snapshots; `newStatus` stands for the literal new-values payload
whose only field is the status set to voided. -/
structure TransactionAuditLog where
  tenantId : Nat
  transactionId : Nat
  action : String
  reason : String
  oldValues : AuditSnapshot
  newStatus : String
  userId : Nat
deriving Repr, DecidableEq

/-- `database.User`: only the role matters to the engine. -/
structure User where
  id : Nat
  role : String
deriving Repr, DecidableEq

/-- The relational state the engine reads and writes. -/
structure DB where
  products : List Product
  materials : List RawMaterial
  productMaterials : List ProductMaterial
  transactions : List Transaction
  auditLogs : List TransactionAuditLog
  users : List User
deriving Repr, DecidableEq

/-- `WHERE id = ? AND tenant_id = ?` + `First` on products. -/
def findProduct (db : DB) (pid tid : Nat) : Option Product :=
  db.products.find? (fun p => p.id == pid && p.tenantId == tid)

/-- `WHERE id = ? AND tenant_id = ?` + `First` on transactions. -/
def findTransaction (db : DB) (txId tid : Nat) : Option Transaction :=
  db.transactions.find? (fun t => t.id == txId && t.tenantId == tid)

/-- `WHERE id = ?` + `First` on users. -/
def findUser (db : DB) (uid : Nat) : Option User :=
  db.users.find? (fun u => u.id == uid)

/-- `WHERE product_id = ?` + `Find` on product_materials. -/
def linksOf (db : DB) (pid : Nat) : List ProductMaterial :=
  db.productMaterials.filter (fun pm => pm.productId == pid)

/-- The `Preload("Material")` association: the stock of the linked material;
a dangling link preloads the zero-valued material (stock 0), as in Go. -/
def materialStockOf (db : DB) (mid : Nat) : ℚ :=
  match db.materials.find? (fun m => m.id == mid) with
  | some m => m.stockQty
  | none => 0

/-- `UPDATE products SET stock_qty = stock_qty + d WHERE id = ?`. -/
def updateProductStock (db : DB) (pid : Nat) (d : ℤ) : DB :=
  { db with products :=
      db.products.map (fun p =>
        if p.id == pid then { p with stockQty := p.stockQty + d } else p) }

/-- `UPDATE raw_materials SET stock_qty = stock_qty + d WHERE id = ?`. -/
def updateMaterialStock (db : DB) (mid : Nat) (d : ℚ) : DB :=
  { db with materials :=
      db.materials.map (fun m =>
        if m.id == mid then { m with stockQty := m.stockQty + d } else m) }

/-! ## Stock Availability Calculator

`calculateMaterialStock` (internal/inventory/handler.go, lines 103–134) and the
material branch of `GetAvailableStock` (internal/product/handler.go, lines
252–336) run the identical loop: skip links with `quantity_used ≤ 0`, default
the conversion rate to 1 when the stored value is ≤ 0, divide the material's
stock by `quantity_used × conversion_rate`, track the running minimum (the
`math.MaxFloat64` sentinel becomes `Option ℚ`), and floor the result, with 0
when no link qualified or none is linked. -/

/-- `convRate := pm.ConversionRate; if convRate <= 0 { convRate = 1 }`. -/
def convRateOf (pm : ProductMaterial) : ℚ :=
  if pm.conversionRate ≤ 0 then 1 else pm.conversionRate

/-- `canMake := pm.Material.StockQty / actualUsage` with
`actualUsage := pm.QuantityUsed * convRate`. -/
def canMake (db : DB) (pm : ProductMaterial) : ℚ :=
  materialStockOf db pm.materialId / (pm.quantityUsed * convRateOf pm)

/-- The availability loop: `availableStock` starts at the `MaxFloat64` sentinel
(`none`), links with `quantity_used ≤ 0` are skipped, and the running minimum is
kept. -/
def minCanMake (db : DB) : List ProductMaterial → Option ℚ → Option ℚ
  | [], acc => acc
  | pm :: rest, acc =>
      if pm.quantityUsed ≤ 0 then minCanMake db rest acc
      else
        let cm := canMake db pm
        match acc with
        | none => minCanMake db rest (some cm)
        | some a => minCanMake db rest (some (if cm < a then cm else a))

/-- `calculateMaterialStock` (inventory handler): 0 when no links, 0 when the
sentinel survives the loop, otherwise `int(math.Floor(availableStock))`. -/
def calculateMaterialStock (db : DB) (pid : Nat) : ℤ :=
  let pms := linksOf db pid
  if pms.isEmpty then 0
  else
    match minCanMake db pms none with
    | none => 0
    | some a => ⌊a⌋

/-- `GetAvailableStock` (product handler): product lookup scoped to the tenant,
manual-stock products return `stock_qty` directly, material-driven products run
the same loop as `calculateMaterialStock`.  A pure read: it takes the state and
returns only a number. -/
def getAvailableStock (db : DB) (pid tid : Nat) : Option ℤ :=
  match findProduct db pid tid with
  | none => none
  | some p =>
      if !p.useMaterialStock then some p.stockQty
      else
        let pms := linksOf db pid
        if pms.isEmpty then some 0
        else
          match minCanMake db pms none with
          | none => some 0
          | some a => some ⌊a⌋

/-! ## Unit-of-work machinery

`h.db.Begin()` opens a database transaction.  Mutations act on a shadow copy
`cur`; `Rollback` discards it, `Commit` makes it the new state.  A statement
failure — injected by the oracle, one tick per statement — aborts the
PostgreSQL transaction: every later statement in the same unit fails too, and
committing an aborted unit persists nothing. -/

/-- The in-flight state of one database transaction. -/
structure TxState where
  cur : DB
  tick : Nat
  aborted : Bool
deriving Repr

/-- One statement inside the unit of work: a no-op when the transaction is
already aborted, an abort when the oracle fails this tick, otherwise the
mutation `f` applied to the shadow state.  The returned flag is the
statement's error check. -/
def txStep (oracle : Nat → Bool) (st : TxState) (f : DB → DB) : TxState × Bool :=
  if st.aborted then ({ st with tick := st.tick + 1 }, false)
  else if oracle st.tick then ({ st with tick := st.tick + 1, aborted := true }, false)
  else ({ st with cur := f st.cur, tick := st.tick + 1 }, true)

/-- The engine's error taxonomy, one constructor per distinct handler exit.
`forbidden` carries the next-tier approver the Go message names
(`Hubungi manager` / `Hubungi owner`), or `none` for the role-less denial. -/
inductive Err where
  | badRequest : Err
  | productNotFound : Nat → Err
  | stockUpdateFailed : Err
  | createFailed : Err
  | userNotFound : Err
  | transactionNotFound : Err
  | alreadyVoided : Err
  | forbidden : Option String → Err
  | voidUpdateFailed : Err
  | restoreFailed : Err
  | auditFailed : Err
  | stockBelowZero : Err
  | notFound : Err
deriving Repr, DecidableEq

/-- One line of `CreateTransactionRequest.Items`; the binding requires
`quantity ≥ 1`. -/
structure TransactionItemRequest where
  productId : Nat
  quantity : ℤ
deriving Repr, DecidableEq

/-- `CreateTransactionRequest`.  Gin's `binding` tags require at least one
item and quantity ≥ 1 on each; `tax` and `discount` are plain `float64`
fields whose absent value is 0. -/
structure CreateTransactionRequest where
  items : List TransactionItemRequest
  discount : ℚ
  tax : ℚ
  paymentMethod : String
deriving Repr, DecidableEq

/-- The `binding:"required,min=1"` validation gin runs before the handler. -/
def validRequest (req : CreateTransactionRequest) : Bool :=
  !req.items.isEmpty && req.items.all (fun r => 1 ≤ r.quantity)

/-- The wall clock at the moment of the call: `dateStr` is
`time.Now().Format("20060102")`, `dayKey` is `Format("2006-01-02")`, and
`unixNano` is `time.Now().UnixNano()`. -/
structure Clock where
  dateStr : String
  dayKey : String
  unixNano : ℤ
deriving Repr, DecidableEq

/-- `fmt.Sprintf("INV-%s-%d", time.Now().Format("20060102"), time.Now().UnixNano()%10000)`. -/
def genInvoiceNumber (clock : Clock) : String :=
  "INV-" ++ clock.dateStr ++ "-" ++ toString (clock.unixNano % 10000)

/-- The daily queue number: the `ORDER BY order_number DESC` + `First` query
over today's rows of the tenant, plus one; 1 when the query finds no row. -/
def nextOrderNumber (db : DB) (tid : Nat) (day : String) : ℤ :=
  let todays := db.transactions.filter (fun t => t.tenantId == tid && t.createdDay == day)
  match (todays.map (fun t => t.orderNumber)).max? with
  | none => 1
  | some n => n + 1

/-- The inner loop of `Create` lines 116–124: for every recipe link of the
product, deduct `pm.QuantityUsed * float64(item.Quantity)` from the linked
material.  The statement's error is ignored by the Go code, so a failure
only aborts the enclosing unit. -/
def deductMaterials (oracle : Nat → Bool) (qty : ℤ) :
    List ProductMaterial → TxState → TxState
  | [], st => st
  | pm :: rest, st =>
      let r := txStep oracle st (fun d => updateMaterialStock d pm.materialId (-(pm.quantityUsed * qty)))
      deductMaterials oracle qty rest r.fst

/-- The per-item loop of `Create` lines 88–125: load the product (any read
error surfaces as product-not-found, as in the Go code), accumulate the item
row, subtotal and per-product tax, decrement the product stock — checked —
and deduct the recipe materials — unchecked. -/
def createLoop (oracle : Nat → Bool) (tid : Nat) :
    List TransactionItemRequest → TxState → List TransactionItem → ℚ → ℚ →
    Except Err (TxState × List TransactionItem × ℚ × ℚ)
  | [], st, acc, subtotal, totalTax => .ok (st, acc, subtotal, totalTax)
  | r :: rest, st, acc, subtotal, totalTax =>
      let read := txStep oracle st id
      match if read.snd then findProduct read.fst.cur r.productId tid else none with
      | none => .error (.productNotFound r.productId)
      | some product =>
          let itemSubtotal := product.price * (r.quantity : ℚ)
          let itemTax := itemSubtotal * (product.taxRate / 100)
          let item : TransactionItem :=
            { productId := r.productId, quantity := r.quantity,
              unitPrice := product.price, subtotal := itemSubtotal }
          let w := txStep oracle read.fst (fun d => updateProductStock d r.productId (-r.quantity))
          if !w.snd then .error .stockUpdateFailed
          else
            let pms := linksOf w.fst.cur r.productId
            let st3 := deductMaterials oracle r.quantity pms w.fst
            createLoop oracle tid rest st3 (acc ++ [item]) (subtotal + itemSubtotal) (totalTax + itemTax)

/-- `Create` (internal/transaction/handler.go, lines 55–170).  `newId` stands
for the UUID the store generates for the new row.  An `.error` exit is a
rolled-back unit: the caller's state is unchanged.  The final insert enforces
the `uniqueIndex` on `invoice_number`. -/
def createTransaction (oracle : Nat → Bool) (clock : Clock) (tid newId : Nat)
    (req : CreateTransactionRequest) (db : DB) : Except Err (DB × Transaction) :=
  if !validRequest req then .error .badRequest
  else
    let st0 : TxState := { cur := db, tick := 0, aborted := false }
    let q := txStep oracle st0 id
    let orderNumber := if q.snd then nextOrderNumber q.fst.cur tid clock.dayKey else 1
    match createLoop oracle tid req.items q.fst [] 0 0 with
    | .error e => .error e
    | .ok (st, items, subtotal, totalTax) =>
        let finalTax := if req.tax == 0 then totalTax else req.tax
        let total := subtotal - req.discount + finalTax
        let paymentMethod := if req.paymentMethod == "" then "cash" else req.paymentMethod
        let invoice := genInvoiceNumber clock
        let txn : Transaction :=
          { id := newId, tenantId := tid, invoiceNumber := invoice,
            orderNumber := orderNumber, items := items, subtotal := subtotal,
            discount := req.discount, tax := finalTax, total := total,
            status := "completed", paymentMethod := paymentMethod,
            createdAt := clock.unixNano, createdDay := clock.dayKey }
        let dup := st.cur.transactions.any (fun t => t.invoiceNumber == invoice)
        let ins := txStep oracle st (fun d => { d with transactions := d.transactions ++ [txn] })
        if !ins.snd || dup then .error .createFailed
        else .ok (ins.fst.cur, txn)

/-- The state after a call to `Create`: an error exit rolled the unit back. -/
def createRun (oracle : Nat → Bool) (clock : Clock) (tid newId : Nat)
    (req : CreateTransactionRequest) (db : DB) : DB :=
  match createTransaction oracle clock tid newId req db with
  | .error _ => db
  | .ok (db2, _) => db2

/-! ## Void/Cancellation Engine -/

/-- `Void` lines 272–291: per item, restore the product stock — checked — then
restore the recipe materials — unchecked; the recipe links are read through
`h.db`, outside the unit of work, hence from `base`. -/
def restoreItems (oracle : Nat → Bool) (base : DB) :
    List TransactionItem → TxState → Except Err TxState
  | [], st => .ok st
  | item :: rest, st =>
      let w := txStep oracle st (fun d => updateProductStock d item.productId item.quantity)
      if !w.snd then .error .restoreFailed
      else
        let pms := linksOf base item.productId
        let st2 := (pms.foldl (fun s pm =>
          (txStep oracle s (fun d => updateMaterialStock d pm.materialId (pm.quantityUsed * item.quantity))).fst) w.fst)
        restoreItems oracle base rest st2

/-- `UPDATE transactions SET status = 'voided' WHERE id = ?`. -/
def setVoided (db : DB) (txId : Nat) : DB :=
  { db with transactions :=
      db.transactions.map (fun t =>
        if t.id == txId then { t with status := "voided" } else t) }

/-- `Void` (internal/transaction/handler.go, lines 195–316).  Guards run in
source order before the unit of work opens: request binding, user lookup,
transaction lookup scoped to the tenant, the already-voided conflict guard,
then the role × elapsed-time authorization switch
(`elapsed = clock.unixNano - transaction.createdAt`, in nanoseconds).
An `.error` exit performs no mutation. -/
def voidTransaction (oracle : Nat → Bool) (clock : Clock) (tid uid txId : Nat)
    (reason : String) (db : DB) : Except Err (DB × TransactionAuditLog) :=
  if reason == "" then .error .badRequest
  else
    match findUser db uid with
    | none => .error .userNotFound
    | some user =>
        match findTransaction db txId tid with
        | none => .error .transactionNotFound
        | some txn =>
            if txn.status == "voided" then .error .alreadyVoided
            else
              let elapsed := clock.unixNano - txn.createdAt
              let fiveMinutes : ℤ := 5 * 60 * 1000000000
              let oneDay : ℤ := 24 * 60 * 60 * 1000000000
              let gate : Option Err :=
                if user.role == "cashier" then
                  if elapsed > fiveMinutes then some (.forbidden (some "manager")) else none
                else if user.role == "manager" then
                  if elapsed > oneDay then some (.forbidden (some "owner")) else none
                else if user.role == "owner" then none
                else some (.forbidden none)
              match gate with
              | some e => .error e
              | none =>
                  let st0 : TxState := { cur := db, tick := 0, aborted := false }
                  let oldValues : AuditSnapshot :=
                    { status := txn.status, total := txn.total, subtotal := txn.subtotal,
                      discount := txn.discount, tax := txn.tax, items := txn.items }
                  let u := txStep oracle st0 (fun d => setVoided d txId)
                  if !u.snd then .error .voidUpdateFailed
                  else
                    match restoreItems oracle db txn.items u.fst with
                    | .error e => .error e
                    | .ok st2 =>
                        let auditLog : TransactionAuditLog :=
                          { tenantId := tid, transactionId := txId, action := "void",
                            reason := reason, oldValues := oldValues,
                            newStatus := "voided", userId := uid }
                        let ins := txStep oracle st2 (fun d => { d with auditLogs := d.auditLogs ++ [auditLog] })
                        if !ins.snd then .error .auditFailed
                        else .ok (ins.fst.cur, auditLog)

/-- The state after a call to `Void`: an error exit rolled the unit back. -/
def voidRun (oracle : Nat → Bool) (clock : Clock) (tid uid txId : Nat)
    (reason : String) (db : DB) : DB :=
  match voidTransaction oracle clock tid uid txId reason db with
  | .error _ => db
  | .ok (db2, _) => db2

/-! ## Manual stock adjustment -/

/-- `UpdateStock` (internal/inventory/handler.go, lines 209–235): load the
product scoped to the tenant, reject an adjustment that would take the stock
below zero, otherwise save the new quantity. -/
def updateStock (tid pid : Nat) (quantity : ℤ) (db : DB) : Except Err DB :=
  match findProduct db pid tid with
  | none => .error .notFound
  | some product =>
      let newQty := product.stockQty + quantity
      if newQty < 0 then .error .stockBelowZero
      else .ok { db with products :=
          db.products.map (fun p => if p.id == pid then { p with stockQty := newQty } else p) }

/-- Statement failures never happen: the oracle of a healthy store. -/
def noFail : Nat → Bool := fun _ => false

/-! ## Availability calculator: the loop computes a minimum -/

/-- The qualifying recipe links: those with `quantity_used > 0`. -/
def qualifyingLinks (db : DB) (pid : Nat) : List ProductMaterial :=
  (linksOf db pid).filter (fun pm => decide (0 < pm.quantityUsed))

/-! ## Delta bookkeeping for stock mutations -/

def applyProductDeltas (ds : List (Nat × ℤ)) (db : DB) : DB :=
  ds.foldl (fun d x => updateProductStock d x.fst x.snd) db

def applyMaterialDeltas (ds : List (Nat × ℚ)) (db : DB) : DB :=
  ds.foldl (fun d x => updateMaterialStock d x.fst x.snd) db

def productNet : List (Nat × ℤ) → Nat → ℤ
  | [], _ => 0
  | x :: ds, pid => (if x.fst == pid then x.snd else 0) + productNet ds pid

def materialNet : List (Nat × ℚ) → Nat → ℚ
  | [], _ => 0
  | x :: ds, mid => (if x.fst == mid then x.snd else 0) + materialNet ds mid


/-- The price/tax-rate the handler reads for a product. -/
def priceOf (db : DB) (pid tid : Nat) : ℚ :=
  match findProduct db pid tid with
  | some p => p.price
  | none => 0

def taxRateOf (db : DB) (pid tid : Nat) : ℚ :=
  match findProduct db pid tid with
  | some p => p.taxRate
  | none => 0

/-! ## What a successful Create computes -/

/-- The product-stock deltas of one order: `-quantity` per line. -/
def reqProductDeltas (rs : List TransactionItemRequest) : List (Nat × ℤ) :=
  rs.map (fun r => (r.productId, -r.quantity))

/-- The raw-material deltas of one order: `-(quantity_used × quantity)` per
recipe link per line, exactly as the deduction loop applies them. -/
def reqMaterialDeltas (db : DB) (rs : List TransactionItemRequest) : List (Nat × ℚ) :=
  (rs.map (fun r => (linksOf db r.productId).map
    (fun pm => (pm.materialId, -(pm.quantityUsed * (r.quantity : ℚ)))))).flatten

/-- The transaction-item row built for one request line. -/
def itemOf (db : DB) (tid : Nat) (r : TransactionItemRequest) : TransactionItem :=
  { productId := r.productId, quantity := r.quantity,
    unitPrice := priceOf db r.productId tid,
    subtotal := priceOf db r.productId tid * (r.quantity : ℚ) }

/-- Sum of the item subtotals of an order. -/
def orderSubtotal (db : DB) (tid : Nat) (rs : List TransactionItemRequest) : ℚ :=
  ((rs.map (itemOf db tid)).map (fun i => i.subtotal)).sum

/-- Accumulated per-item tax of an order. -/
def orderItemTax (db : DB) (tid : Nat) (rs : List TransactionItemRequest) : ℚ :=
  (rs.map (fun r => (itemOf db tid r).subtotal * (taxRateOf db r.productId tid / 100))).sum


/-! ## What a successful Void computes -/

/-- The product-stock deltas the void restores: `+quantity` per item row. -/
def itemProductDeltas (items : List TransactionItem) : List (Nat × ℤ) :=
  items.map (fun i => (i.productId, i.quantity))

/-- The raw-material deltas the void restores: `+(quantity_used × quantity)`
per recipe link per item row. -/
def itemMaterialDeltas (db : DB) (items : List TransactionItem) : List (Nat × ℚ) :=
  (items.map (fun i => (linksOf db i.productId).map
    (fun pm => (pm.materialId, pm.quantityUsed * (i.quantity : ℚ))))).flatten

/-! ## Lemmas -/

lemma if_lt_eq_min (a cm : ℚ) : (if cm < a then cm else a) = min a cm := by
  split
  · exact (min_eq_right (le_of_lt (by assumption))).symm
  · exact (min_eq_left (le_of_not_lt (by assumption))).symm

lemma minCanMake_some (db : DB) (l : List ProductMaterial) (a : ℚ) :
    minCanMake db l (some a) =
      some (((l.filter (fun pm => decide (0 < pm.quantityUsed))).map (canMake db)).foldl min a) := by
  induction l generalizing a with
  | nil => rfl
  | cons pm rest ih =>
      by_cases h : pm.quantityUsed ≤ 0
      · have hq : (decide (0 < pm.quantityUsed)) = false := by
          simp [decide_eq_false_iff_not, not_lt, h]
        simp [minCanMake, h, List.filter_cons, hq, ih]
      · have hq : (decide (0 < pm.quantityUsed)) = true := by
          simp [not_le.mp h]
        simp only [minCanMake, if_neg h, List.filter_cons, hq, if_true, List.map_cons,
          List.foldl_cons]
        rw [if_lt_eq_min, ih]

lemma minCanMake_none (db : DB) (l : List ProductMaterial) :
    minCanMake db l none =
      ((l.filter (fun pm => decide (0 < pm.quantityUsed))).map (canMake db)).min? := by
  induction l with
  | nil => rfl
  | cons pm rest ih =>
      by_cases h : pm.quantityUsed ≤ 0
      · have hq : (decide (0 < pm.quantityUsed)) = false := by
          simp [decide_eq_false_iff_not, not_lt, h]
        simp [minCanMake, h, List.filter_cons, hq, ih]
      · have hq : (decide (0 < pm.quantityUsed)) = true := by
          simp [not_le.mp h]
        simp only [minCanMake, if_neg h, List.filter_cons, hq, if_true, List.map_cons]
        rw [minCanMake_some]
        rfl

lemma calculateMaterialStock_eq (db : DB) (pid : Nat) :
    calculateMaterialStock db pid =
      match ((qualifyingLinks db pid).map (canMake db)).min? with
      | none => 0
      | some x => ⌊x⌋ := by
  unfold calculateMaterialStock qualifyingLinks
  by_cases h : (linksOf db pid).isEmpty
  · have he : linksOf db pid = [] := List.isEmpty_iff.mp h
    simp [he]
  · simp [h, minCanMake_none]

lemma applyProductDeltas_products (ds : List (Nat × ℤ)) (db : DB) :
    (applyProductDeltas ds db).products =
      db.products.map (fun p => { p with stockQty := p.stockQty + productNet ds p.id }) := by
  induction ds generalizing db with
  | nil => simp [applyProductDeltas, productNet]
  | cons x ds ih =>
      have h1 : applyProductDeltas (x :: ds) db = applyProductDeltas ds (updateProductStock db x.fst x.snd) := rfl
      rw [h1, ih]
      unfold updateProductStock
      rw [List.map_map]
      apply List.map_congr_left
      intro p _
      by_cases h : p.id == x.fst
      · have hx : x.fst == p.id := by
          simp only [beq_iff_eq, Bool.not_eq_true, ne_eq, beq_eq_false_iff_ne] at h ⊢
          omega
        simp only [Function.comp, h, if_true, productNet, hx]
        simp [add_assoc]
      · have hx : (x.fst == p.id) = false := by
          simp only [beq_iff_eq, Bool.not_eq_true, ne_eq, beq_eq_false_iff_ne] at h ⊢
          omega
        simp [Function.comp, h, productNet, hx]

lemma applyMaterialDeltas_materials (ds : List (Nat × ℚ)) (db : DB) :
    (applyMaterialDeltas ds db).materials =
      db.materials.map (fun m => { m with stockQty := m.stockQty + materialNet ds m.id }) := by
  induction ds generalizing db with
  | nil => simp [applyMaterialDeltas, materialNet]
  | cons x ds ih =>
      have h1 : applyMaterialDeltas (x :: ds) db = applyMaterialDeltas ds (updateMaterialStock db x.fst x.snd) := rfl
      rw [h1, ih]
      unfold updateMaterialStock
      rw [List.map_map]
      apply List.map_congr_left
      intro m _
      by_cases h : m.id == x.fst
      · have hx : x.fst == m.id := by
          simp only [beq_iff_eq, Bool.not_eq_true, ne_eq, beq_eq_false_iff_ne] at h ⊢
          omega
        simp only [Function.comp, h, if_true, materialNet, hx]
        simp [add_assoc]
      · have hx : (x.fst == m.id) = false := by
          simp only [beq_iff_eq, Bool.not_eq_true, ne_eq, beq_eq_false_iff_ne] at h ⊢
          omega
        simp [Function.comp, h, materialNet, hx]


lemma productNet_neg (ds : List (Nat × ℤ)) (pid : Nat) :
    productNet (ds.map (fun x => (x.fst, -x.snd))) pid = -productNet ds pid := by
  induction ds with
  | nil => simp [productNet]
  | cons x ds ih =>
      simp only [List.map_cons, productNet, ih, neg_add]
      by_cases h : x.fst == pid <;> simp [h]

lemma materialNet_neg (ds : List (Nat × ℚ)) (mid : Nat) :
    materialNet (ds.map (fun x => (x.fst, -x.snd))) mid = -materialNet ds mid := by
  induction ds with
  | nil => simp [materialNet]
  | cons x ds ih =>
      simp only [List.map_cons, materialNet, ih, neg_add]
      by_cases h : x.fst == mid <;> simp [h]

lemma applyProductDeltas_cancel (ds : List (Nat × ℤ)) (db db2 : DB)
    (h : db2.products = (applyProductDeltas ds db).products) :
    (applyProductDeltas (ds.map (fun x => (x.fst, -x.snd))) db2).products = db.products := by
  rw [applyProductDeltas_products, h, applyProductDeltas_products, List.map_map]
  have : ∀ p ∈ db.products,
      ((fun p => { p with stockQty := p.stockQty + productNet (ds.map (fun x => (x.fst, -x.snd))) p.id }) ∘
        (fun p => { p with stockQty := p.stockQty + productNet ds p.id })) p = p := by
    intro p _
    simp [Function.comp, productNet_neg, add_assoc]
  rw [List.map_congr_left this]
  simp

lemma applyMaterialDeltas_cancel (ds : List (Nat × ℚ)) (db db2 : DB)
    (h : db2.materials = (applyMaterialDeltas ds db).materials) :
    (applyMaterialDeltas (ds.map (fun x => (x.fst, -x.snd))) db2).materials = db.materials := by
  rw [applyMaterialDeltas_materials, h, applyMaterialDeltas_materials, List.map_map]
  have : ∀ m ∈ db.materials,
      ((fun m => { m with stockQty := m.stockQty + materialNet (ds.map (fun x => (x.fst, -x.snd))) m.id }) ∘
        (fun m => { m with stockQty := m.stockQty + materialNet ds m.id })) m = m := by
    intro m _
    simp [Function.comp, materialNet_neg, add_assoc]
  rw [List.map_congr_left this]
  simp

/-! Field preservation of the stock updaters and their folds. -/

lemma applyProductDeltas_materials (ds : List (Nat × ℤ)) (db : DB) :
    (applyProductDeltas ds db).materials = db.materials := by
  induction ds generalizing db with
  | nil => rfl
  | cons x ds ih => exact ih (updateProductStock db x.fst x.snd)

lemma applyProductDeltas_rest (ds : List (Nat × ℤ)) (db : DB) :
    (applyProductDeltas ds db).productMaterials = db.productMaterials ∧
    (applyProductDeltas ds db).transactions = db.transactions ∧
    (applyProductDeltas ds db).auditLogs = db.auditLogs ∧
    (applyProductDeltas ds db).users = db.users := by
  induction ds generalizing db with
  | nil => exact ⟨rfl, rfl, rfl, rfl⟩
  | cons x ds ih => exact ih (updateProductStock db x.fst x.snd)

lemma applyMaterialDeltas_products (ds : List (Nat × ℚ)) (db : DB) :
    (applyMaterialDeltas ds db).products = db.products := by
  induction ds generalizing db with
  | nil => rfl
  | cons x ds ih => exact ih (updateMaterialStock db x.fst x.snd)

lemma applyMaterialDeltas_rest (ds : List (Nat × ℚ)) (db : DB) :
    (applyMaterialDeltas ds db).productMaterials = db.productMaterials ∧
    (applyMaterialDeltas ds db).transactions = db.transactions ∧
    (applyMaterialDeltas ds db).auditLogs = db.auditLogs ∧
    (applyMaterialDeltas ds db).users = db.users := by
  induction ds generalizing db with
  | nil => exact ⟨rfl, rfl, rfl, rfl⟩
  | cons x ds ih => exact ih (updateMaterialStock db x.fst x.snd)

/-! Catalog lookups are untouched by stock deltas. -/

lemma find?_map_of_pred {α : Type} (g : α → α) (pred : α → Bool)
    (hg : ∀ a, pred (g a) = pred a) (l : List α) :
    (l.map g).find? pred = (l.find? pred).map g := by
  induction l with
  | nil => rfl
  | cons a l ih =>
      simp only [List.map_cons, List.find?]
      rw [hg a]
      cases h : pred a <;> simp [h, ih]

lemma findProduct_updateProductStock (db : DB) (pid : Nat) (d : ℤ) (x t : Nat) :
    findProduct (updateProductStock db pid d) x t =
      (findProduct db x t).map
        (fun p => if p.id == pid then { p with stockQty := p.stockQty + d } else p) := by
  unfold findProduct updateProductStock
  exact find?_map_of_pred _ _ (fun p => by by_cases h : p.id == pid <;> simp [h]) db.products

lemma catalog_updateProductStock (db : DB) (pid : Nat) (d : ℤ) (x t : Nat) :
    priceOf (updateProductStock db pid d) x t = priceOf db x t ∧
    taxRateOf (updateProductStock db pid d) x t = taxRateOf db x t ∧
    (findProduct (updateProductStock db pid d) x t).isSome = (findProduct db x t).isSome := by
  unfold priceOf taxRateOf
  rw [findProduct_updateProductStock]
  cases h : findProduct db x t with
  | none => exact ⟨rfl, rfl, rfl⟩
  | some p =>
      refine ⟨?_, ?_, rfl⟩ <;> simp only [Option.map_some'] <;> split <;> rfl

lemma catalog_applyProductDeltas (ds : List (Nat × ℤ)) (db : DB) (x t : Nat) :
    priceOf (applyProductDeltas ds db) x t = priceOf db x t ∧
    taxRateOf (applyProductDeltas ds db) x t = taxRateOf db x t ∧
    (findProduct (applyProductDeltas ds db) x t).isSome = (findProduct db x t).isSome := by
  induction ds generalizing db with
  | nil => exact ⟨rfl, rfl, rfl⟩
  | cons y ds ih =>
      have h1 := catalog_updateProductStock db y.fst y.snd x t
      have h2 := ih (updateProductStock db y.fst y.snd)
      exact ⟨h2.1.trans h1.1, h2.2.1.trans h1.2.1, h2.2.2.trans h1.2.2⟩

lemma catalog_applyMaterialDeltas (ds : List (Nat × ℚ)) (db : DB) (x t : Nat) :
    priceOf (applyMaterialDeltas ds db) x t = priceOf db x t ∧
    taxRateOf (applyMaterialDeltas ds db) x t = taxRateOf db x t ∧
    findProduct (applyMaterialDeltas ds db) x t = findProduct db x t := by
  induction ds generalizing db with
  | nil => exact ⟨rfl, rfl, rfl⟩
  | cons y ds ih => exact ih (updateMaterialStock db y.fst y.snd)

lemma linksOf_applyProductDeltas (ds : List (Nat × ℤ)) (db : DB) (pid : Nat) :
    linksOf (applyProductDeltas ds db) pid = linksOf db pid := by
  unfold linksOf
  rw [(applyProductDeltas_rest ds db).1]

lemma linksOf_applyMaterialDeltas (ds : List (Nat × ℚ)) (db : DB) (pid : Nat) :
    linksOf (applyMaterialDeltas ds db) pid = linksOf db pid := by
  unfold linksOf
  rw [(applyMaterialDeltas_rest ds db).1]

/-! ## Behaviour of the unit-of-work steps on a healthy store -/

lemma txStep_noFail (st : TxState) (f : DB → DB) (h : st.aborted = false) :
    txStep noFail st f = ({ st with cur := f st.cur, tick := st.tick + 1 }, true) := by
  simp [txStep, noFail, h]

lemma updateComm (db : DB) (p : Nat) (z : ℤ) (m : Nat) (q : ℚ) :
    updateProductStock (updateMaterialStock db m q) p z =
      updateMaterialStock (updateProductStock db p z) m q := rfl

lemma applyMaterialDeltas_updateProductStock (ms : List (Nat × ℚ)) (db : DB) (p : Nat) (z : ℤ) :
    applyMaterialDeltas ms (updateProductStock db p z) =
      updateProductStock (applyMaterialDeltas ms db) p z := by
  induction ms generalizing db with
  | nil => rfl
  | cons x ms ih =>
      have h1 : applyMaterialDeltas (x :: ms) (updateProductStock db p z) =
          applyMaterialDeltas ms (updateMaterialStock (updateProductStock db p z) x.fst x.snd) := rfl
      rw [h1, ← updateComm, ih]
      rfl

lemma applyProductDeltas_applyMaterialDeltas (ds : List (Nat × ℤ)) (ms : List (Nat × ℚ)) (db : DB) :
    applyProductDeltas ds (applyMaterialDeltas ms db) =
      applyMaterialDeltas ms (applyProductDeltas ds db) := by
  induction ds generalizing db with
  | nil => rfl
  | cons x ds ih =>
      have h1 : applyProductDeltas (x :: ds) (applyMaterialDeltas ms db) =
          applyProductDeltas ds (updateProductStock (applyMaterialDeltas ms db) x.fst x.snd) := rfl
      rw [h1, ← applyMaterialDeltas_updateProductStock, ih]
      rfl

lemma applyMaterialDeltas_append (ds1 ds2 : List (Nat × ℚ)) (db : DB) :
    applyMaterialDeltas (ds1 ++ ds2) db = applyMaterialDeltas ds2 (applyMaterialDeltas ds1 db) := by
  unfold applyMaterialDeltas
  exact List.foldl_append _ _ ds1 ds2

lemma deductMaterials_noFail (qty : ℤ) (l : List ProductMaterial) (st : TxState)
    (h : st.aborted = false) :
    deductMaterials noFail qty l st =
      { cur := applyMaterialDeltas (l.map (fun pm => (pm.materialId, -(pm.quantityUsed * (qty : ℚ))))) st.cur,
        tick := st.tick + l.length, aborted := false } := by
  induction l generalizing st with
  | nil =>
      obtain ⟨cur, tick, aborted⟩ := st
      simp only at h
      simp [deductMaterials, applyMaterialDeltas, h]
  | cons pm rest ih =>
      simp only [deductMaterials]
      rw [txStep_noFail _ _ h,
        ih { st with cur := updateMaterialStock st.cur pm.materialId (-(pm.quantityUsed * (qty : ℚ))), tick := st.tick + 1 } h]
      have ht : st.tick + 1 + rest.length = st.tick + (rest.length + 1) := by omega
      simp only [List.map_cons, List.length_cons, ht]
      rfl

lemma linksOf_updateProductStock (db : DB) (p : Nat) (z : ℤ) (x : Nat) :
    linksOf (updateProductStock db p z) x = linksOf db x := rfl

lemma linksOf_updateMaterialStock (db : DB) (m : Nat) (q : ℚ) (x : Nat) :
    linksOf (updateMaterialStock db m q) x = linksOf db x := rfl

lemma reqMaterialDeltas_congr (db1 db2 : DB)
    (h : db1.productMaterials = db2.productMaterials) (rs : List TransactionItemRequest) :
    reqMaterialDeltas db1 rs = reqMaterialDeltas db2 rs := by
  unfold reqMaterialDeltas linksOf
  rw [h]

lemma itemOf_congr (db1 db2 : DB) (tid : Nat)
    (hp : ∀ x, priceOf db1 x tid = priceOf db2 x tid) (r : TransactionItemRequest) :
    itemOf db1 tid r = itemOf db2 tid r := by
  unfold itemOf
  rw [hp]

lemma orderSubtotal_congr (db1 db2 : DB) (tid : Nat) (rs : List TransactionItemRequest)
    (hp : ∀ x, priceOf db1 x tid = priceOf db2 x tid) :
    orderSubtotal db1 tid rs = orderSubtotal db2 tid rs := by
  unfold orderSubtotal
  rw [List.map_congr_left (fun r _ => itemOf_congr db1 db2 tid hp r)]

lemma orderItemTax_congr (db1 db2 : DB) (tid : Nat) (rs : List TransactionItemRequest)
    (hp : ∀ x, priceOf db1 x tid = priceOf db2 x tid)
    (ht : ∀ x, taxRateOf db1 x tid = taxRateOf db2 x tid) :
    orderItemTax db1 tid rs = orderItemTax db2 tid rs := by
  unfold orderItemTax
  refine congrArg List.sum (List.map_congr_left ?_)
  intro r _
  rw [itemOf_congr db1 db2 tid hp r, ht]

lemma catalog_step (db : DB) (p : Nat) (z : ℤ) (D : List (Nat × ℚ)) (tid : Nat) :
    (∀ x, priceOf (applyMaterialDeltas D (updateProductStock db p z)) x tid = priceOf db x tid) ∧
    (∀ x, taxRateOf (applyMaterialDeltas D (updateProductStock db p z)) x tid = taxRateOf db x tid) := by
  constructor <;> intro x
  · exact ((catalog_applyMaterialDeltas D _ x tid).1).trans (catalog_updateProductStock db p z x tid).1
  · exact ((catalog_applyMaterialDeltas D _ x tid).2.1).trans (catalog_updateProductStock db p z x tid).2.1

lemma createLoop_noFail_ok (tid : Nat) (rs : List TransactionItemRequest) :
    ∀ (st : TxState) (acc : List TransactionItem) (s t : ℚ)
      (st2 : TxState) (items : List TransactionItem) (s2 t2 : ℚ),
      st.aborted = false →
      createLoop noFail tid rs st acc s t = .ok (st2, items, s2, t2) →
      st2.aborted = false ∧
      st2.cur = applyMaterialDeltas (reqMaterialDeltas st.cur rs)
        (applyProductDeltas (reqProductDeltas rs) st.cur) ∧
      items = acc ++ rs.map (itemOf st.cur tid) ∧
      s2 = s + orderSubtotal st.cur tid rs ∧
      t2 = t + orderItemTax st.cur tid rs := by
  induction rs with
  | nil =>
      intro st acc s t st2 items s2 t2 hab h
      simp only [createLoop, Except.ok.injEq, Prod.mk.injEq] at h
      obtain ⟨h1, h2, h3, h4⟩ := h
      subst h1 h2 h3 h4
      refine ⟨hab, rfl, by simp, ?_, ?_⟩ <;>
        simp [orderSubtotal, orderItemTax, reqProductDeltas, reqMaterialDeltas]
  | cons r rest ih =>
      intro st acc s t st2 items s2 t2 hab h
      simp only [createLoop, txStep_noFail, deductMaterials_noFail, hab, id_eq, if_true,
        Bool.not_true, Bool.false_eq_true, if_false, linksOf_updateProductStock] at h
      cases hfind : findProduct st.cur r.productId tid with
      | none => rw [hfind] at h; exact absurd h (by simp)
      | some product =>
          rw [hfind] at h
          simp only at h
          have hres := ih _ _ _ _ _ _ _ _ rfl h
          obtain ⟨hab2, hcur, hitems, hs, ht⟩ := hres
          set D := (linksOf st.cur r.productId).map
            (fun pm => (pm.materialId, -(pm.quantityUsed * (r.quantity : ℚ)))) with hD
          have hcat := catalog_step st.cur r.productId (-r.quantity) D tid
          have hpm : (applyMaterialDeltas D (updateProductStock st.cur r.productId (-r.quantity))).productMaterials
              = st.cur.productMaterials :=
            (applyMaterialDeltas_rest D _).1
          have hprice : priceOf st.cur r.productId tid = product.price := by
            unfold priceOf
            rw [hfind]
          refine ⟨hab2, ?_, ?_, ?_, ?_⟩
          · rw [hcur]
            rw [reqMaterialDeltas_congr _ st.cur hpm]
            rw [applyProductDeltas_applyMaterialDeltas]
            rw [← applyMaterialDeltas_append]
            rfl
          · rw [hitems]
            rw [List.map_congr_left (fun x _ => itemOf_congr _ st.cur tid hcat.1 x)]
            simp only [List.map_cons, List.append_assoc, List.singleton_append]
            congr 2
            unfold itemOf
            rw [hprice]
          · rw [hs]
            rw [orderSubtotal_congr _ st.cur tid rest hcat.1]
            simp only [orderSubtotal, List.map_cons, List.sum_cons]
            unfold itemOf
            simp only [hprice]
            ring
          · rw [ht]
            rw [orderItemTax_congr _ st.cur tid rest hcat.1 hcat.2]
            simp only [orderItemTax, List.map_cons, List.sum_cons]
            unfold itemOf
            simp only [hprice, taxRateOf, hfind]
            ring

lemma createTransaction_noFail_ok (clock : Clock) (tid newId : Nat)
    (req : CreateTransactionRequest) (db db2 : DB) (txn : Transaction)
    (h : createTransaction noFail clock tid newId req db = .ok (db2, txn)) :
    validRequest req = true ∧
    db2.products = (applyProductDeltas (reqProductDeltas req.items) db).products ∧
    db2.materials = (applyMaterialDeltas (reqMaterialDeltas db req.items) db).materials ∧
    db2.productMaterials = db.productMaterials ∧
    db2.transactions = db.transactions ++ [txn] ∧
    db2.auditLogs = db.auditLogs ∧
    db2.users = db.users ∧
    txn = { id := newId, tenantId := tid, invoiceNumber := genInvoiceNumber clock,
            orderNumber := nextOrderNumber db tid clock.dayKey,
            items := req.items.map (itemOf db tid),
            subtotal := orderSubtotal db tid req.items,
            discount := req.discount,
            tax := if req.tax == 0 then orderItemTax db tid req.items else req.tax,
            total := orderSubtotal db tid req.items - req.discount +
              (if req.tax == 0 then orderItemTax db tid req.items else req.tax),
            status := "completed",
            paymentMethod := if req.paymentMethod == "" then "cash" else req.paymentMethod,
            createdAt := clock.unixNano, createdDay := clock.dayKey } ∧
    (db.transactions.any (fun t => t.invoiceNumber == genInvoiceNumber clock)) = false := by
  unfold createTransaction at h
  cases hv : validRequest req with
  | false => rw [hv] at h; simp at h
  | true =>
      rw [hv] at h
      simp only [Bool.not_true, Bool.false_eq_true, if_false, if_true] at h
      rw [txStep_noFail _ _ rfl] at h
      simp only [id_eq, if_true] at h
      cases hloop : createLoop noFail tid req.items { cur := db, tick := 0 + 1, aborted := false } [] 0 0 with
      | error e => rw [hloop] at h; exact absurd h (by simp)
      | ok res =>
          obtain ⟨st, items, subtotal, totalTax⟩ := res
          rw [hloop] at h
          simp only at h
          have hres := createLoop_noFail_ok tid req.items _ _ _ _ _ _ _ _ rfl hloop
          obtain ⟨hab2, hcur, hitems, hs, ht⟩ := hres
          rw [txStep_noFail _ _ hab2] at h
          simp only [Bool.not_true, Bool.false_eq_true, Bool.false_or, if_false] at h
          cases hdup : st.cur.transactions.any
              (fun t => t.invoiceNumber == genInvoiceNumber clock) with
          | true => rw [hdup] at h; exact absurd h (by simp)
          | false =>
              rw [hdup] at h
              simp only [Bool.false_eq_true, if_false, Except.ok.injEq, Prod.mk.injEq] at h
              obtain ⟨hdb, htx⟩ := h
              simp only at hcur hitems hs ht
              have hrest1 := applyProductDeltas_rest (reqProductDeltas req.items) db
              have hrest2 := applyMaterialDeltas_rest
                (reqMaterialDeltas db req.items)
                (applyProductDeltas (reqProductDeltas req.items) db)
              have htrans : st.cur.transactions = db.transactions := by
                rw [hcur]
                rw [hrest2.2.1, hrest1.2.1]
              refine ⟨rfl, ?_, ?_, ?_, ?_, ?_, ?_, ?_, ?_⟩
              · rw [← hdb]
                show st.cur.products = _
                rw [hcur, applyMaterialDeltas_products]
              · rw [← hdb]
                show st.cur.materials = _
                rw [hcur, applyMaterialDeltas_materials, applyProductDeltas_materials,
                  applyMaterialDeltas_materials]
              · rw [← hdb]
                show st.cur.productMaterials = _
                rw [hcur]
                rw [hrest2.1, hrest1.1]
              · rw [← hdb, ← htx]
                show st.cur.transactions ++ _ = _
                rw [htrans]
              · rw [← hdb]
                show st.cur.auditLogs = _
                rw [hcur]
                rw [hrest2.2.2.1, hrest1.2.2.1]
              · rw [← hdb]
                show st.cur.users = _
                rw [hcur]
                rw [hrest2.2.2.2, hrest1.2.2.2]
              · rw [← htx]
                rw [hitems, hs, ht]
                simp
              · rw [← htrans, hdup]

lemma txStep_noFail2 (c : DB) (k : Nat) (f : DB → DB) :
    txStep noFail ⟨c, k, false⟩ f = (⟨f c, k + 1, false⟩, true) := by
  simp [txStep, noFail]

lemma materialFold_noFail (pms : List ProductMaterial) (q : ℤ) :
    ∀ (c : DB) (k : Nat),
    (pms.foldl (fun s pm =>
        (txStep noFail s (fun d => updateMaterialStock d pm.materialId (pm.quantityUsed * (q : ℚ)))).fst)
      ⟨c, k, false⟩) =
      ⟨applyMaterialDeltas (pms.map (fun pm => (pm.materialId, pm.quantityUsed * (q : ℚ)))) c,
        k + pms.length, false⟩ := by
  induction pms with
  | nil =>
      intro c k
      simp [applyMaterialDeltas]
  | cons pm rest ih =>
      intro c k
      simp only [List.foldl_cons]
      rw [txStep_noFail2]
      simp only
      rw [ih (updateMaterialStock c pm.materialId (pm.quantityUsed * (q : ℚ))) (k + 1)]
      have ht : k + 1 + rest.length = k + (rest.length + 1) := by omega
      simp only [List.map_cons, List.length_cons, ht]
      rfl

lemma restoreItems_noFail (base : DB) (items : List TransactionItem) :
    ∀ (c : DB) (k : Nat),
    ∃ st2 : TxState, restoreItems noFail base items ⟨c, k, false⟩ = .ok st2 ∧ st2.aborted = false ∧
      st2.cur = applyMaterialDeltas (itemMaterialDeltas base items)
        (applyProductDeltas (itemProductDeltas items) c) := by
  induction items with
  | nil =>
      intro c k
      exact ⟨⟨c, k, false⟩, rfl, rfl, rfl⟩
  | cons i rest ih =>
      intro c k
      simp only [restoreItems]
      rw [txStep_noFail2]
      simp only [Bool.not_true, Bool.false_eq_true, if_false]
      rw [materialFold_noFail _ _ (updateProductStock c i.productId i.quantity) (k + 1)]
      obtain ⟨st2, heq, hab2, hcur⟩ := ih
        (applyMaterialDeltas ((linksOf base i.productId).map
            (fun pm => (pm.materialId, pm.quantityUsed * (i.quantity : ℚ))))
          (updateProductStock c i.productId i.quantity))
        (k + 1 + (linksOf base i.productId).length)
      refine ⟨st2, heq, hab2, ?_⟩
      rw [hcur]
      rw [applyProductDeltas_applyMaterialDeltas, ← applyMaterialDeltas_append]
      rfl

lemma setVoided_rest (db : DB) (txId : Nat) :
    (setVoided db txId).products = db.products ∧
    (setVoided db txId).materials = db.materials ∧
    (setVoided db txId).productMaterials = db.productMaterials ∧
    (setVoided db txId).auditLogs = db.auditLogs ∧
    (setVoided db txId).users = db.users :=
  ⟨rfl, rfl, rfl, rfl, rfl⟩

lemma voidTransaction_noFail_ok (clock : Clock) (tid uid txId : Nat) (reason : String)
    (db db2 : DB) (log : TransactionAuditLog)
    (h : voidTransaction noFail clock tid uid txId reason db = .ok (db2, log)) :
    ∃ user txn, findUser db uid = some user ∧ findTransaction db txId tid = some txn ∧
      ¬reason = "" ∧ ¬txn.status = "voided" ∧
      db2.products = (applyProductDeltas (itemProductDeltas txn.items) db).products ∧
      db2.materials = (applyMaterialDeltas (itemMaterialDeltas db txn.items) db).materials ∧
      db2.productMaterials = db.productMaterials ∧
      db2.transactions = (setVoided db txId).transactions ∧
      db2.auditLogs = db.auditLogs ++ [log] ∧
      db2.users = db.users := by
  unfold voidTransaction at h
  cases hr : reason == "" with
  | true => rw [hr] at h; exact absurd h (by simp)
  | false =>
      rw [hr] at h
      simp only [Bool.false_eq_true, if_false] at h
      cases hu : findUser db uid with
      | none => rw [hu] at h; exact absurd h (by simp)
      | some user =>
          rw [hu] at h
          simp only at h
          cases htx : findTransaction db txId tid with
          | none => rw [htx] at h; exact absurd h (by simp)
          | some txn =>
              rw [htx] at h
              simp only at h
              cases hst : txn.status == "voided" with
              | true => rw [hst] at h; exact absurd h (by simp)
              | false =>
                  rw [hst] at h
                  simp only [Bool.false_eq_true, if_false] at h
                  refine ⟨user, txn, rfl, rfl, by simpa using hr, by simpa using hst, ?_⟩
                  cases hgate : (if user.role == "cashier" then
                      if clock.unixNano - txn.createdAt > 5 * 60 * 1000000000 then
                        some (Err.forbidden (some "manager")) else none
                    else if user.role == "manager" then
                      if clock.unixNano - txn.createdAt > 24 * 60 * 60 * 1000000000 then
                        some (Err.forbidden (some "owner")) else none
                    else if user.role == "owner" then none
                    else some (.forbidden none)) with
                  | some e => rw [hgate] at h; exact absurd h (by simp)
                  | none =>
                      rw [hgate] at h
                      simp only at h
                      rw [txStep_noFail2] at h
                      simp only [Bool.not_true, Bool.false_eq_true, if_false] at h
                      obtain ⟨st2, heq, hab2, hcur⟩ :=
                        restoreItems_noFail db txn.items (setVoided db txId) (0 + 1)
                      rw [heq] at h
                      simp only at h
                      rw [txStep_noFail st2 _ hab2] at h
                      simp only [Bool.not_true, Bool.false_eq_true, if_false,
                        Except.ok.injEq, Prod.mk.injEq] at h
                      obtain ⟨hdb, hlog⟩ := h
                      have hsv := setVoided_rest db txId
                      have hrest1 := applyProductDeltas_rest (itemProductDeltas txn.items) (setVoided db txId)
                      have hrest2 := applyMaterialDeltas_rest (itemMaterialDeltas db txn.items)
                        (applyProductDeltas (itemProductDeltas txn.items) (setVoided db txId))
                      refine ⟨?_, ?_, ?_, ?_, ?_, ?_⟩
                      · rw [← hdb]
                        show st2.cur.products = _
                        rw [hcur, applyMaterialDeltas_products, applyProductDeltas_products,
                          applyProductDeltas_products, hsv.1]
                      · rw [← hdb]
                        show st2.cur.materials = _
                        rw [hcur, applyMaterialDeltas_materials, applyProductDeltas_materials,
                          applyMaterialDeltas_materials, hsv.2.1]
                      · rw [← hdb]
                        show st2.cur.productMaterials = _
                        rw [hcur, hrest2.1, hrest1.1, hsv.2.2.1]
                      · rw [← hdb]
                        show st2.cur.transactions = _
                        rw [hcur, hrest2.2.1, hrest1.2.1]
                      · rw [← hdb, ← hlog]
                        show st2.cur.auditLogs ++ _ = _
                        rw [hcur, hrest2.2.2.1, hrest1.2.2.1, hsv.2.2.2.1]
                      · rw [← hdb]
                        show st2.cur.users = _
                        rw [hcur, hrest2.2.2.2, hrest1.2.2.2, hsv.2.2.2.2]


/-! ## The claims -/

/-- C1: for a product with `use_material_stock` true, the available-stock
computation returns the floor of the minimum, over linked materials with
`quantity_used > 0`, of `material.stock_qty / (quantity_used × conversion_rate)`
with the conversion rate defaulted to 1 when the stored value is ≤ 0 (this is
`canMake`), and 0 when no link qualifies or none is linked; for a product with
the flag false it returns the stored `stock_qty` unchanged.  Both readers — the
inventory listing's `calculateMaterialStock` and the per-product
`GetAvailableStock` — agree, and the computation is a pure function of the
state: it performs no mutation by type. -/
theorem c1_available_stock (db : DB) (pid tid : Nat) (p : Product)
    (hp : findProduct db pid tid = some p) :
    (p.useMaterialStock = false → getAvailableStock db pid tid = some p.stockQty) ∧
    (p.useMaterialStock = true →
      getAvailableStock db pid tid = some (calculateMaterialStock db pid) ∧
      (qualifyingLinks db pid = [] → calculateMaterialStock db pid = 0) ∧
      (∀ x : ℚ, ((qualifyingLinks db pid).map (canMake db)).min? = some x →
        calculateMaterialStock db pid = ⌊x⌋)) := by
  refine ⟨fun hm => ?_, fun hm => ⟨?_, fun hq => ?_, fun x hx => ?_⟩⟩
  · simp [getAvailableStock, hp, hm]
  · rw [calculateMaterialStock_eq]
    unfold getAvailableStock qualifyingLinks
    rw [hp]
    by_cases h : (linksOf db pid).isEmpty
    · have he : linksOf db pid = [] := List.isEmpty_iff.mp h
      simp [hm, he]
    · simp only [hm, Bool.not_true, Bool.false_eq_true, if_false, h, minCanMake_none]
      cases ((List.filter (fun pm => decide (0 < pm.quantityUsed)) (linksOf db pid)).map (canMake db)).min? <;> rfl
  · rw [calculateMaterialStock_eq]
    simp [hq]
  · rw [calculateMaterialStock_eq, hx]

/-- Witness for C1 at a concrete state: a material-driven product whose two
links give ⌊min(20/2, 9/(1×3))⌋ = 3, and a manual product returning its stored
stock. -/
theorem c1_available_stock_witness :
    (Warungin.getAvailableStock
      { products := [{ id := 1, tenantId := 1, price := 5, taxRate := 0, stockQty := 100, useMaterialStock := true }],
        materials := [{ id := 7, stockQty := 20 }, { id := 8, stockQty := 9 }],
        productMaterials := [{ productId := 1, materialId := 7, quantityUsed := 2, conversionRate := 1 },
                             { productId := 1, materialId := 8, quantityUsed := 1, conversionRate := 3 }],
        transactions := [], auditLogs := [], users := [] } 1 1 = some 3) ∧
    (Warungin.getAvailableStock
      { products := [{ id := 2, tenantId := 1, price := 5, taxRate := 0, stockQty := 42, useMaterialStock := false }],
        materials := [], productMaterials := [],
        transactions := [], auditLogs := [], users := [] } 2 1 = some 42) := by
  constructor
  · have h := c1_available_stock
      { products := [{ id := 1, tenantId := 1, price := 5, taxRate := 0, stockQty := 100, useMaterialStock := true }],
        materials := [{ id := 7, stockQty := 20 }, { id := 8, stockQty := 9 }],
        productMaterials := [{ productId := 1, materialId := 7, quantityUsed := 2, conversionRate := 1 },
                             { productId := 1, materialId := 8, quantityUsed := 1, conversionRate := 3 }],
        transactions := [], auditLogs := [], users := [] } 1 1
      { id := 1, tenantId := 1, price := 5, taxRate := 0, stockQty := 100, useMaterialStock := true }
      (by decide)
    have h2 := (h.2 rfl).2.2 3 (by
      simp [qualifyingLinks, linksOf, canMake, materialStockOf, convRateOf, List.min?, min_def]
      norm_num)
    have h1 := (h.2 rfl).1
    rw [h1, h2]
    decide
  · have h := c1_available_stock
      { products := [{ id := 2, tenantId := 1, price := 5, taxRate := 0, stockQty := 42, useMaterialStock := false }],
        materials := [], productMaterials := [],
        transactions := [], auditLogs := [], users := [] } 2 1
      { id := 2, tenantId := 1, price := 5, taxRate := 0, stockQty := 42, useMaterialStock := false }
      (by decide)
    exact h.1 rfl

/-! ## Material consumption vs. the availability rule -/

/-- C2: the claim says a created order deducts
`quantity_used × conversion_rate × item_quantity` from each linked material,
with the same conversion-rate default rule as the availability calculator.
The code (`Create` lines 119–124) deducts `quantity_used × item_quantity`
only, never reading `conversion_rate`.  At a link with `quantity_used = 1`,
`conversion_rate = 2`, material stock 10 and an order of one unit, the code
leaves stock 9 where the claim requires 10 − 1×2×1 = 8; the availability
calculator, which does apply the conversion rate, says each unit consumes 2,
so available stock and actual consumption diverge. -/
theorem c2_deduction_ignores_conversion_rate :
    ((createRun noFail { dateStr := "20260101", dayKey := "2026-01-01", unixNano := 5 } 1 50
      { items := [{ productId := 1, quantity := 1 }], discount := 0, tax := 0, paymentMethod := "" }
      { products := [{ id := 1, tenantId := 1, price := 5, taxRate := 0, stockQty := 100, useMaterialStock := true }],
        materials := [{ id := 7, stockQty := 10 }],
        productMaterials := [{ productId := 1, materialId := 7, quantityUsed := 1, conversionRate := 2 }],
        transactions := [], auditLogs := [], users := [] }).materials
      = [{ id := 7, stockQty := 9 }]) ∧
    ((createRun noFail { dateStr := "20260101", dayKey := "2026-01-01", unixNano := 5 } 1 50
      { items := [{ productId := 1, quantity := 1 }], discount := 0, tax := 0, paymentMethod := "" }
      { products := [{ id := 1, tenantId := 1, price := 5, taxRate := 0, stockQty := 100, useMaterialStock := true }],
        materials := [{ id := 7, stockQty := 10 }],
        productMaterials := [{ productId := 1, materialId := 7, quantityUsed := 1, conversionRate := 2 }],
        transactions := [], auditLogs := [], users := [] }).materials
      ≠ [{ id := 7, stockQty := 8 }]) := by
  constructor <;>
    norm_num [createRun, createTransaction, validRequest, createLoop, deductMaterials, txStep,
      findProduct, linksOf, updateProductStock, updateMaterialStock, genInvoiceNumber,
      nextOrderNumber, noFail, List.find?, List.filter]

/-! ## Manual stock never negative? -/

/-- C8: the claim states manual-stock products can never be driven below zero.
`UpdateStock` (inventory handler, lines 225–229) does reject an adjustment that
would go below zero, but `Create` (transaction handler, line 110) decrements
`stock_qty` with no sufficiency check: ordering 3 units of a manual-stock
product holding 2 commits a stock of −1. -/
theorem c8_create_drives_manual_stock_negative :
    ((createRun noFail { dateStr := "20260101", dayKey := "2026-01-01", unixNano := 5 } 1 50
      { items := [{ productId := 1, quantity := 3 }], discount := 0, tax := 0, paymentMethod := "" }
      { products := [{ id := 1, tenantId := 1, price := 5, taxRate := 0, stockQty := 2, useMaterialStock := false }],
        materials := [], productMaterials := [],
        transactions := [], auditLogs := [], users := [] }).products
      = [{ id := 1, tenantId := 1, price := 5, taxRate := 0, stockQty := -1, useMaterialStock := false }]) ∧
    (updateStock 1 1 (-3)
      { products := [{ id := 1, tenantId := 1, price := 5, taxRate := 0, stockQty := 2, useMaterialStock := false }],
        materials := [], productMaterials := [],
        transactions := [], auditLogs := [], users := [] }
      = .error .stockBelowZero) := by
  constructor
  · norm_num [createRun, createTransaction, validRequest, createLoop, deductMaterials, txStep,
      findProduct, linksOf, updateProductStock, updateMaterialStock, genInvoiceNumber,
      nextOrderNumber, noFail, List.find?, List.filter]
  · norm_num [updateStock, findProduct, List.find?]


/-- C4: for every successfully created order, transaction.subtotal equals the
sum of the item subtotals, each item subtotal is price × quantity, each item
contributes subtotal × tax_rate/100 to the accumulated tax (`orderItemTax`),
the final tax is the request's override when one is given (a nonzero `tax`
field — the Go request cannot distinguish an absent field from an explicit 0)
and the accumulated item tax otherwise, and transaction.total equals
subtotal − discount + tax. -/
theorem c4_order_totals (clock : Clock) (tid newId : Nat)
    (req : CreateTransactionRequest) (db db2 : DB) (txn : Transaction)
    (h : createTransaction noFail clock tid newId req db = .ok (db2, txn)) :
    txn.subtotal = (txn.items.map (fun i => i.subtotal)).sum ∧
    (∀ i ∈ txn.items, i.subtotal = i.unitPrice * (i.quantity : ℚ)) ∧
    (req.tax = 0 → txn.tax = orderItemTax db tid req.items) ∧
    (req.tax ≠ 0 → txn.tax = req.tax) ∧
    txn.total = txn.subtotal - req.discount + txn.tax := by
  obtain ⟨-, -, -, -, -, -, -, htxn, -⟩ := createTransaction_noFail_ok clock tid newId req db db2 txn h
  subst htxn
  refine ⟨rfl, ?_, ?_, ?_, rfl⟩
  · intro i hi
    simp only at hi
    obtain ⟨r, -, hr⟩ := List.mem_map.mp hi
    subst hr
    rfl
  · intro h0
    simp [h0]
  · intro h0
    simp only
    rw [if_neg (by simpa using h0)]

/-- Witness for C4: a product priced 10 with tax rate 10%, ordered twice with
discount 3 and no tax override: subtotal 20, tax 2, total 19. -/
theorem c4_order_totals_witness :
    createTransaction noFail { dateStr := "20260102", dayKey := "2026-01-02", unixNano := 999 } 1 50
      { items := [{ productId := 1, quantity := 2 }], discount := 3, tax := 0, paymentMethod := "" }
      { products := [{ id := 1, tenantId := 1, price := 10, taxRate := 10, stockQty := 5, useMaterialStock := false }],
        materials := [], productMaterials := [], transactions := [], auditLogs := [], users := [] }
      = .ok
      ({ products := [{ id := 1, tenantId := 1, price := 10, taxRate := 10, stockQty := 3, useMaterialStock := false }],
         materials := [], productMaterials := [],
         transactions := [{ id := 50, tenantId := 1, invoiceNumber := "INV-20260102-999", orderNumber := 1,
                            items := [{ productId := 1, quantity := 2, unitPrice := 10, subtotal := 20 }],
                            subtotal := 20, discount := 3, tax := 2, total := 19, status := "completed",
                            paymentMethod := "cash", createdAt := 999, createdDay := "2026-01-02" }],
         auditLogs := [], users := [] },
       { id := 50, tenantId := 1, invoiceNumber := "INV-20260102-999", orderNumber := 1,
         items := [{ productId := 1, quantity := 2, unitPrice := 10, subtotal := 20 }],
         subtotal := 20, discount := 3, tax := 2, total := 19, status := "completed",
         paymentMethod := "cash", createdAt := 999, createdDay := "2026-01-02" }) ∧
    ((20 : ℚ) = ([({ productId := 1, quantity := 2, unitPrice := 10, subtotal := 20 } :
        TransactionItem)].map (fun i => i.subtotal)).sum ∧
     (2 : ℚ) = orderItemTax
      { products := [{ id := 1, tenantId := 1, price := 10, taxRate := 10, stockQty := 5, useMaterialStock := false }],
        materials := [], productMaterials := [], transactions := [], auditLogs := [], users := [] }
      1 [{ productId := 1, quantity := 2 }] ∧
     (19 : ℚ) = 20 - 3 + 2) := by
  have hc : createTransaction noFail { dateStr := "20260102", dayKey := "2026-01-02", unixNano := 999 } 1 50
      { items := [{ productId := 1, quantity := 2 }], discount := 3, tax := 0, paymentMethod := "" }
      { products := [{ id := 1, tenantId := 1, price := 10, taxRate := 10, stockQty := 5, useMaterialStock := false }],
        materials := [], productMaterials := [], transactions := [], auditLogs := [], users := [] }
      = .ok
      ({ products := [{ id := 1, tenantId := 1, price := 10, taxRate := 10, stockQty := 3, useMaterialStock := false }],
         materials := [], productMaterials := [],
         transactions := [{ id := 50, tenantId := 1, invoiceNumber := "INV-20260102-999", orderNumber := 1,
                            items := [{ productId := 1, quantity := 2, unitPrice := 10, subtotal := 20 }],
                            subtotal := 20, discount := 3, tax := 2, total := 19, status := "completed",
                            paymentMethod := "cash", createdAt := 999, createdDay := "2026-01-02" }],
         auditLogs := [], users := [] },
       { id := 50, tenantId := 1, invoiceNumber := "INV-20260102-999", orderNumber := 1,
         items := [{ productId := 1, quantity := 2, unitPrice := 10, subtotal := 20 }],
         subtotal := 20, discount := 3, tax := 2, total := 19, status := "completed",
         paymentMethod := "cash", createdAt := 999, createdDay := "2026-01-02" }) := by
    norm_num [createTransaction, validRequest, createLoop, deductMaterials, txStep,
      findProduct, linksOf, updateProductStock, updateMaterialStock, genInvoiceNumber,
      nextOrderNumber, noFail, List.find?, List.filter]
    rfl
  have h := c4_order_totals _ 1 50 _ _ _ _ hc
  exact ⟨hc, h.1, by simpa using h.2.2.1 rfl, by simpa using h.2.2.2.2⟩

lemma void_alreadyVoided_guard (oracle : Nat → Bool) (clock : Clock)
    (tid uid txId : Nat) (reason : String) (db : DB) (user : User) (txn : Transaction)
    (hr : reason ≠ "") (hu : findUser db uid = some user)
    (ht : findTransaction db txId tid = some txn) (hs : txn.status = "voided") :
    voidTransaction oracle clock tid uid txId reason db = .error .alreadyVoided := by
  unfold voidTransaction
  rw [if_neg (by simpa using hr), hu]
  simp only
  rw [ht]
  simp only
  rw [if_pos (by simp [hs])]

/-- C10: the Void handler checks not-found, then already-voided, then the
role × time authorization, in that order; hence on an already-voided
transaction any caller — whatever their role, however long ago the
transaction was created — receives the already-voided conflict error, never a
permission error, and no state changes. -/
theorem c10_alreadyVoided_before_authorization (oracle : Nat → Bool) (clock : Clock)
    (tid uid txId : Nat) (reason : String) (db : DB) (user : User) (txn : Transaction)
    (hr : reason ≠ "") (hu : findUser db uid = some user)
    (ht : findTransaction db txId tid = some txn) (hs : txn.status = "voided") :
    voidTransaction oracle clock tid uid txId reason db = .error .alreadyVoided ∧
    voidRun oracle clock tid uid txId reason db = db := by
  have h1 := void_alreadyVoided_guard oracle clock tid uid txId reason db user txn hr hu ht hs
  exact ⟨h1, by simp [voidRun, h1]⟩

/-- Witness for C10: a cashier tries to void an already-voided transaction
three days after its creation — far outside the cashier window — and still
receives the conflict error, with the state untouched. -/
theorem c10_alreadyVoided_before_authorization_witness :
    voidTransaction noFail { dateStr := "20261014", dayKey := "2026-10-14", unixNano := 259200000010123 } 1 9 55 "salah input"
      { products := [], materials := [], productMaterials := [],
        transactions := [{ id := 55, tenantId := 1, invoiceNumber := "INV-20261011-123", orderNumber := 1,
                           items := [], subtotal := 20, discount := 0, tax := 0, total := 20,
                           status := "voided", paymentMethod := "cash", createdAt := 10123,
                           createdDay := "2026-10-11" }],
        auditLogs := [], users := [{ id := 9, role := "cashier" }] }
      = .error .alreadyVoided ∧
    voidRun noFail { dateStr := "20261014", dayKey := "2026-10-14", unixNano := 259200000010123 } 1 9 55 "salah input"
      { products := [], materials := [], productMaterials := [],
        transactions := [{ id := 55, tenantId := 1, invoiceNumber := "INV-20261011-123", orderNumber := 1,
                           items := [], subtotal := 20, discount := 0, tax := 0, total := 20,
                           status := "voided", paymentMethod := "cash", createdAt := 10123,
                           createdDay := "2026-10-11" }],
        auditLogs := [], users := [{ id := 9, role := "cashier" }] }
      = { products := [], materials := [], productMaterials := [],
          transactions := [{ id := 55, tenantId := 1, invoiceNumber := "INV-20261011-123", orderNumber := 1,
                             items := [], subtotal := 20, discount := 0, tax := 0, total := 20,
                             status := "voided", paymentMethod := "cash", createdAt := 10123,
                             createdDay := "2026-10-11" }],
          auditLogs := [], users := [{ id := 9, role := "cashier" }] } :=
  c10_alreadyVoided_before_authorization noFail
    { dateStr := "20261014", dayKey := "2026-10-14", unixNano := 259200000010123 } 1 9 55 "salah input"
    _ { id := 9, role := "cashier" } _
    (by simp) (by rfl) (by rfl) (by rfl)

/-- C6: a void attempt on an already-voided transaction fails with the
conflict error and changes nothing — voided is terminal; a create only adds
transactions in status completed; a successful void flips exactly the target
transaction's status to voided, and when every stored transaction is in
status completed or voided (as the engine alone produces), the voided one was
previously completed — completed→voided is the only transition performed. -/
theorem c6_voided_terminal (oracle : Nat → Bool) (clock : Clock)
    (tid uid txId newId : Nat) (reason : String) (req : CreateTransactionRequest)
    (db : DB) (user : User) (txn : Transaction)
    (hr : reason ≠ "") (hu : findUser db uid = some user)
    (ht : findTransaction db txId tid = some txn) :
    (txn.status = "voided" →
      voidTransaction oracle clock tid uid txId reason db = .error .alreadyVoided ∧
      voidRun oracle clock tid uid txId reason db = db) ∧
    (∀ db2 txn2, createTransaction noFail clock tid newId req db = .ok (db2, txn2) →
      ∀ t ∈ db2.transactions, t ∈ db.transactions ∨ t.status = "completed") ∧
    (∀ db2 log, voidTransaction noFail clock tid uid txId reason db = .ok (db2, log) →
      txn.status ≠ "voided" ∧
      db2.transactions = db.transactions.map
        (fun t => if t.id == txId then { t with status := "voided" } else t) ∧
      ((∀ t ∈ db.transactions, t.status = "completed" ∨ t.status = "voided") →
        txn.status = "completed")) := by
  refine ⟨fun hs => ?_, fun db2 txn2 hc => ?_, fun db2 log hv => ?_⟩
  · have h1 := void_alreadyVoided_guard oracle clock tid uid txId reason db user txn hr hu ht hs
    exact ⟨h1, by simp [voidRun, h1]⟩
  · intro t htmem
    obtain ⟨-, -, -, -, htrans, -, -, htxn2, -⟩ :=
      createTransaction_noFail_ok clock tid newId req db db2 txn2 hc
    rw [htrans] at htmem
    rcases List.mem_append.mp htmem with hmem | hmem
    · exact Or.inl hmem
    · right
      rw [List.mem_singleton.mp hmem, htxn2]
  · obtain ⟨user2, txn2, hu2, ht2, -, hs2, -, -, -, htrans2, -, -⟩ :=
      voidTransaction_noFail_ok clock tid uid txId reason db db2 log hv
    have htt : txn2 = txn := by
      rw [ht] at ht2
      exact (Option.some.injEq _ _).mp ht2.symm
    subst htt
    refine ⟨hs2, htrans2, fun hall => ?_⟩
    have hmem : txn2 ∈ db.transactions := by
      have := List.mem_of_find?_eq_some ht
      exact this
    rcases hall txn2 hmem with hcv | hcv
    · exact hcv
    · exact absurd hcv hs2

/-- Witness for C6: the same already-voided scenario as the conflict guard —
a manager's second void three days out is refused with the conflict error and
no mutation. -/
theorem c6_voided_terminal_witness :
    voidTransaction noFail { dateStr := "20261014", dayKey := "2026-10-14", unixNano := 400000000010123 } 1 8 56 "dobel"
      { products := [], materials := [], productMaterials := [],
        transactions := [{ id := 56, tenantId := 1, invoiceNumber := "INV-20261011-124", orderNumber := 2,
                           items := [], subtotal := 5, discount := 0, tax := 0, total := 5,
                           status := "voided", paymentMethod := "cash", createdAt := 10123,
                           createdDay := "2026-10-11" }],
        auditLogs := [], users := [{ id := 8, role := "manager" }] }
      = .error .alreadyVoided ∧
    voidRun noFail { dateStr := "20261014", dayKey := "2026-10-14", unixNano := 400000000010123 } 1 8 56 "dobel"
      { products := [], materials := [], productMaterials := [],
        transactions := [{ id := 56, tenantId := 1, invoiceNumber := "INV-20261011-124", orderNumber := 2,
                           items := [], subtotal := 5, discount := 0, tax := 0, total := 5,
                           status := "voided", paymentMethod := "cash", createdAt := 10123,
                           createdDay := "2026-10-11" }],
        auditLogs := [], users := [{ id := 8, role := "manager" }] }
      = { products := [], materials := [], productMaterials := [],
          transactions := [{ id := 56, tenantId := 1, invoiceNumber := "INV-20261011-124", orderNumber := 2,
                             items := [], subtotal := 5, discount := 0, tax := 0, total := 5,
                             status := "voided", paymentMethod := "cash", createdAt := 10123,
                             createdDay := "2026-10-11" }],
          auditLogs := [], users := [{ id := 8, role := "manager" }] } :=
  (c6_voided_terminal noFail
    { dateStr := "20261014", dayKey := "2026-10-14", unixNano := 400000000010123 } 1 8 56 57 "dobel"
    { items := [], discount := 0, tax := 0, paymentMethod := "" }
    _ { id := 8, role := "manager" } _
    (by simp) (by rfl) (by rfl)).1 (by rfl)

lemma void_gate_denied (oracle : Nat → Bool) (clock : Clock) (tid uid txId : Nat)
    (reason : String) (db : DB) (user : User) (txn : Transaction) (e : Err)
    (hr : reason ≠ "") (hu : findUser db uid = some user)
    (ht : findTransaction db txId tid = some txn) (hs : txn.status ≠ "voided")
    (hgate : (if user.role == "cashier" then
        if clock.unixNano - txn.createdAt > 5 * 60 * 1000000000 then
          some (Err.forbidden (some "manager")) else none
      else if user.role == "manager" then
        if clock.unixNano - txn.createdAt > 24 * 60 * 60 * 1000000000 then
          some (Err.forbidden (some "owner")) else none
      else if user.role == "owner" then none
      else some (.forbidden none)) = some e) :
    voidTransaction oracle clock tid uid txId reason db = .error e ∧
    voidRun oracle clock tid uid txId reason db = db := by
  have h1 : voidTransaction oracle clock tid uid txId reason db = .error e := by
    unfold voidTransaction
    rw [if_neg (by simpa using hr), hu]
    simp only
    rw [ht]
    simp only
    rw [if_neg (by simpa using hs)]
    rw [hgate]
  exact ⟨h1, by simp [voidRun, h1]⟩

lemma void_gate_passed (clock : Clock) (tid uid txId : Nat)
    (reason : String) (db : DB) (user : User) (txn : Transaction)
    (hr : reason ≠ "") (hu : findUser db uid = some user)
    (ht : findTransaction db txId tid = some txn) (hs : txn.status ≠ "voided")
    (hgate : (if user.role == "cashier" then
        if clock.unixNano - txn.createdAt > 5 * 60 * 1000000000 then
          some (Err.forbidden (some "manager")) else none
      else if user.role == "manager" then
        if clock.unixNano - txn.createdAt > 24 * 60 * 60 * 1000000000 then
          some (Err.forbidden (some "owner")) else none
      else if user.role == "owner" then none
      else some (.forbidden none)) = none) :
    ∃ r, voidTransaction noFail clock tid uid txId reason db = .ok r := by
  unfold voidTransaction
  rw [if_neg (by simpa using hr), hu]
  simp only
  rw [ht]
  simp only
  rw [if_neg (by simpa using hs)]
  rw [hgate]
  simp only
  rw [txStep_noFail2]
  simp only [Bool.not_true, Bool.false_eq_true, if_false]
  obtain ⟨st2, heq, hab2, hcur⟩ := restoreItems_noFail db txn.items (setVoided db txId) (0 + 1)
  rw [heq]
  simp only
  rw [txStep_noFail st2 _ hab2]
  simp only [Bool.not_true, Bool.false_eq_true, if_false]
  exact ⟨_, rfl⟩

/-- C5 (amended): void authorization is the role × elapsed-time gate over
elapsed = now − created_at.  A cashier within 5 minutes, a manager within 24
hours and an owner at any age pass the gate and the void succeeds; a cashier
or manager outside their window is denied with a permission error naming the
next-tier approver (manager, resp. owner) and nothing is mutated; any other
role is denied with a permission error that names no approver. -/
theorem c5_void_authorization (oracle : Nat → Bool) (clock : Clock)
    (tid uid txId : Nat) (reason : String) (db : DB) (user : User) (txn : Transaction)
    (hr : reason ≠ "") (hu : findUser db uid = some user)
    (ht : findTransaction db txId tid = some txn) (hs : txn.status ≠ "voided") :
    (user.role = "cashier" → 5 * 60 * 1000000000 < clock.unixNano - txn.createdAt →
      voidTransaction oracle clock tid uid txId reason db = .error (.forbidden (some "manager")) ∧
      voidRun oracle clock tid uid txId reason db = db) ∧
    (user.role = "cashier" → clock.unixNano - txn.createdAt ≤ 5 * 60 * 1000000000 →
      ∃ r, voidTransaction noFail clock tid uid txId reason db = .ok r) ∧
    (user.role = "manager" → 24 * 60 * 60 * 1000000000 < clock.unixNano - txn.createdAt →
      voidTransaction oracle clock tid uid txId reason db = .error (.forbidden (some "owner")) ∧
      voidRun oracle clock tid uid txId reason db = db) ∧
    (user.role = "manager" → clock.unixNano - txn.createdAt ≤ 24 * 60 * 60 * 1000000000 →
      ∃ r, voidTransaction noFail clock tid uid txId reason db = .ok r) ∧
    (user.role = "owner" →
      ∃ r, voidTransaction noFail clock tid uid txId reason db = .ok r) ∧
    (user.role ≠ "cashier" → user.role ≠ "manager" → user.role ≠ "owner" →
      voidTransaction oracle clock tid uid txId reason db = .error (.forbidden none) ∧
      voidRun oracle clock tid uid txId reason db = db) := by
  refine ⟨fun hrole hlate => ?_, fun hrole hin => ?_, fun hrole hlate => ?_,
    fun hrole hin => ?_, fun hrole => ?_, fun hc hm ho => ?_⟩
  · exact void_gate_denied oracle clock tid uid txId reason db user txn _ hr hu ht hs
      (by simp only [hrole]; simp; omega)
  · exact void_gate_passed clock tid uid txId reason db user txn hr hu ht hs
      (by simp only [hrole]; simp; omega)
  · exact void_gate_denied oracle clock tid uid txId reason db user txn _ hr hu ht hs
      (by simp only [hrole]; simp; omega)
  · exact void_gate_passed clock tid uid txId reason db user txn hr hu ht hs
      (by simp only [hrole]; simp; omega)
  · exact void_gate_passed clock tid uid txId reason db user txn hr hu ht hs
      (by simp [hrole])
  · exact void_gate_denied oracle clock tid uid txId reason db user txn _ hr hu ht hs
      (by simp [hc, hm, ho])

/-- Counterexample for C5 as stated: a user whose role is outside the table
(here "supervisor") attempting to void a completed transaction is denied with
the generic permission error that names no next-tier approver, unlike the
cashier/manager window errors which name manager resp. owner. -/
theorem c5_counterexample :
    voidTransaction noFail { dateStr := "20261011", dayKey := "2026-10-11", unixNano := 20000 } 1 9 55 "alasan"
      { products := [], materials := [], productMaterials := [],
        transactions := [{ id := 55, tenantId := 1, invoiceNumber := "INV-20261011-123", orderNumber := 1,
                           items := [], subtotal := 20, discount := 0, tax := 0, total := 20,
                           status := "completed", paymentMethod := "cash", createdAt := 10123,
                           createdDay := "2026-10-11" }],
        auditLogs := [], users := [{ id := 9, role := "supervisor" }] }
      = .error (.forbidden none) ∧
    Err.forbidden none ≠ Err.forbidden (some "manager") ∧
    Err.forbidden none ≠ Err.forbidden (some "owner") := by
  refine ⟨?_, by simp, by simp⟩
  exact (void_gate_denied noFail
    { dateStr := "20261011", dayKey := "2026-10-11", unixNano := 20000 } 1 9 55 "alasan"
    _ { id := 9, role := "supervisor" } _ _
    (by simp) (by rfl) (by rfl) (by simp) (by rfl)).1

/-- Witness for C5: a cashier voiding 301 seconds after creation — past the
5-minute window — is denied with the error naming the manager, and the state
is unchanged. -/
theorem c5_void_authorization_witness :
    voidTransaction noFail { dateStr := "20261011", dayKey := "2026-10-11", unixNano := 301000000000 } 1 9 55 "alasan"
      { products := [], materials := [], productMaterials := [],
        transactions := [{ id := 55, tenantId := 1, invoiceNumber := "INV-20261011-123", orderNumber := 1,
                           items := [], subtotal := 20, discount := 0, tax := 0, total := 20,
                           status := "completed", paymentMethod := "cash", createdAt := 0,
                           createdDay := "2026-10-11" }],
        auditLogs := [], users := [{ id := 9, role := "cashier" }] }
      = .error (.forbidden (some "manager")) ∧
    voidRun noFail { dateStr := "20261011", dayKey := "2026-10-11", unixNano := 301000000000 } 1 9 55 "alasan"
      { products := [], materials := [], productMaterials := [],
        transactions := [{ id := 55, tenantId := 1, invoiceNumber := "INV-20261011-123", orderNumber := 1,
                           items := [], subtotal := 20, discount := 0, tax := 0, total := 20,
                           status := "completed", paymentMethod := "cash", createdAt := 0,
                           createdDay := "2026-10-11" }],
        auditLogs := [], users := [{ id := 9, role := "cashier" }] }
      = { products := [], materials := [], productMaterials := [],
          transactions := [{ id := 55, tenantId := 1, invoiceNumber := "INV-20261011-123", orderNumber := 1,
                             items := [], subtotal := 20, discount := 0, tax := 0, total := 20,
                             status := "completed", paymentMethod := "cash", createdAt := 0,
                             createdDay := "2026-10-11" }],
          auditLogs := [], users := [{ id := 9, role := "cashier" }] } :=
  (c5_void_authorization noFail
    { dateStr := "20261011", dayKey := "2026-10-11", unixNano := 301000000000 } 1 9 55 "alasan"
    _ { id := 9, role := "cashier" } _
    (by simp) (by rfl) (by rfl) (by simp)).1 rfl (by norm_num)

/-- C7 (amended): every invoice number the engine generates has the form
INV-{yyyymmdd}-{n} with n = UnixNano mod 10000, and the persisted transactions
keep pairwise-distinct invoice numbers: the store's unique index makes a
colliding insert fail, so a checkout whose generated number already exists is
rejected rather than stored. -/
theorem c7_invoice_numbers (clock : Clock) (tid newId : Nat)
    (req : CreateTransactionRequest) (db db2 : DB) (txn : Transaction)
    (hnd : (db.transactions.map (fun t => t.invoiceNumber)).Nodup)
    (h : createTransaction noFail clock tid newId req db = .ok (db2, txn)) :
    txn.invoiceNumber = "INV-" ++ clock.dateStr ++ "-" ++ toString (clock.unixNano % 10000) ∧
    (db2.transactions.map (fun t => t.invoiceNumber)).Nodup := by
  obtain ⟨-, -, -, -, htrans, -, -, htxn, hany⟩ :=
    createTransaction_noFail_ok clock tid newId req db db2 txn h
  have hinv : txn.invoiceNumber = genInvoiceNumber clock := by rw [htxn]
  refine ⟨hinv, ?_⟩
  rw [htrans, List.map_append]
  rw [List.nodup_append]
  refine ⟨hnd, by simp, ?_⟩
  intro a ha hb
  simp only [List.map_cons, List.map_nil, List.mem_singleton] at hb
  obtain ⟨t, htm, hta⟩ := List.mem_map.mp ha
  have := (List.any_eq_false.mp hany) t htm
  apply this
  rw [beq_iff_eq, hta, hb, hinv]

/-- Counterexample for C7 as stated: two checkouts on the same calendar day
whose nanosecond timestamps are congruent mod 10000 are assigned the same
invoice number; the second insert then violates the unique index and the
whole second checkout fails instead of receiving a distinct number. -/
theorem c7_counterexample :
    genInvoiceNumber { dateStr := "20261011", dayKey := "2026-10-11", unixNano := 10123 } =
      genInvoiceNumber { dateStr := "20261011", dayKey := "2026-10-11", unixNano := 20123 } ∧
    (10123 : ℤ) ≠ 20123 ∧
    createTransaction noFail { dateStr := "20261011", dayKey := "2026-10-11", unixNano := 20123 } 2 61
      { items := [{ productId := 3, quantity := 1 }], discount := 0, tax := 0, paymentMethod := "qris" }
      { products := [{ id := 3, tenantId := 2, price := 7, taxRate := 0, stockQty := 49, useMaterialStock := false }],
        materials := [], productMaterials := [],
        transactions := [{ id := 60, tenantId := 2, invoiceNumber := "INV-20261011-123", orderNumber := 1,
                           items := [{ productId := 3, quantity := 1, unitPrice := 7, subtotal := 7 }],
                           subtotal := 7, discount := 0, tax := 0, total := 7, status := "completed",
                           paymentMethod := "qris", createdAt := 10123, createdDay := "2026-10-11" }],
        auditLogs := [], users := [] }
      = .error .createFailed := by
  refine ⟨by rfl, by decide, ?_⟩
  norm_num [createTransaction, validRequest, createLoop, deductMaterials, txStep,
    findProduct, linksOf, updateProductStock, updateMaterialStock, genInvoiceNumber,
    nextOrderNumber, noFail, List.find?, List.filter]
  intro hx
  exact absurd (by decide) hx

/-- Witness for C7: a first checkout on an empty store gets invoice
INV-20261011-123 and the stored invoice numbers stay pairwise distinct. -/
theorem c7_invoice_numbers_witness :
    createTransaction noFail { dateStr := "20261011", dayKey := "2026-10-11", unixNano := 10123 } 2 60
      { items := [{ productId := 3, quantity := 1 }], discount := 0, tax := 0, paymentMethod := "qris" }
      { products := [{ id := 3, tenantId := 2, price := 7, taxRate := 0, stockQty := 50, useMaterialStock := false }],
        materials := [], productMaterials := [], transactions := [], auditLogs := [], users := [] }
      = .ok
      ({ products := [{ id := 3, tenantId := 2, price := 7, taxRate := 0, stockQty := 49, useMaterialStock := false }],
         materials := [], productMaterials := [],
         transactions := [{ id := 60, tenantId := 2, invoiceNumber := "INV-20261011-123", orderNumber := 1,
                            items := [{ productId := 3, quantity := 1, unitPrice := 7, subtotal := 7 }],
                            subtotal := 7, discount := 0, tax := 0, total := 7, status := "completed",
                            paymentMethod := "qris", createdAt := 10123, createdDay := "2026-10-11" }],
         auditLogs := [], users := [] },
       { id := 60, tenantId := 2, invoiceNumber := "INV-20261011-123", orderNumber := 1,
         items := [{ productId := 3, quantity := 1, unitPrice := 7, subtotal := 7 }],
         subtotal := 7, discount := 0, tax := 0, total := 7, status := "completed",
         paymentMethod := "qris", createdAt := 10123, createdDay := "2026-10-11" }) ∧
    ("INV-20261011-123" = "INV-" ++ "20261011" ++ "-" ++ toString ((10123 : ℤ) % 10000)) := by
  have hc : createTransaction noFail { dateStr := "20261011", dayKey := "2026-10-11", unixNano := 10123 } 2 60
      { items := [{ productId := 3, quantity := 1 }], discount := 0, tax := 0, paymentMethod := "qris" }
      { products := [{ id := 3, tenantId := 2, price := 7, taxRate := 0, stockQty := 50, useMaterialStock := false }],
        materials := [], productMaterials := [], transactions := [], auditLogs := [], users := [] }
      = .ok
      ({ products := [{ id := 3, tenantId := 2, price := 7, taxRate := 0, stockQty := 49, useMaterialStock := false }],
         materials := [], productMaterials := [],
         transactions := [{ id := 60, tenantId := 2, invoiceNumber := "INV-20261011-123", orderNumber := 1,
                            items := [{ productId := 3, quantity := 1, unitPrice := 7, subtotal := 7 }],
                            subtotal := 7, discount := 0, tax := 0, total := 7, status := "completed",
                            paymentMethod := "qris", createdAt := 10123, createdDay := "2026-10-11" }],
         auditLogs := [], users := [] },
       { id := 60, tenantId := 2, invoiceNumber := "INV-20261011-123", orderNumber := 1,
         items := [{ productId := 3, quantity := 1, unitPrice := 7, subtotal := 7 }],
         subtotal := 7, discount := 0, tax := 0, total := 7, status := "completed",
         paymentMethod := "qris", createdAt := 10123, createdDay := "2026-10-11" }) := by
    norm_num [createTransaction, validRequest, createLoop, deductMaterials, txStep,
      findProduct, linksOf, updateProductStock, updateMaterialStock, genInvoiceNumber,
      nextOrderNumber, noFail, List.find?, List.filter]
    exact ⟨by decide, by decide⟩
  have h := c7_invoice_numbers
    { dateStr := "20261011", dayKey := "2026-10-11", unixNano := 10123 } 2 60 _ _ _ _ (by simp) hc
  exact ⟨hc, by simpa using h.1⟩

lemma createLoop_missing (tid : Nat) (rs : List TransactionItemRequest) :
    ∀ (c : DB) (k : Nat) (acc : List TransactionItem) (s t : ℚ),
    (∃ r ∈ rs, findProduct c r.productId tid = none) →
    ∃ pid, createLoop noFail tid rs ⟨c, k, false⟩ acc s t = .error (.productNotFound pid) := by
  induction rs with
  | nil =>
      intro c k acc s t hmiss
      obtain ⟨r, hmem, -⟩ := hmiss
      exact absurd hmem (List.not_mem_nil r)
  | cons r rest ih =>
      intro c k acc s t hmiss
      cases hf : findProduct c r.productId tid with
      | none =>
          refine ⟨r.productId, ?_⟩
          simp only [createLoop, txStep_noFail2, id_eq]
          simp [hf]
      | some p =>
          obtain ⟨r0, hmem0, hmiss0⟩ := hmiss
          have hne : r0 ∈ rest := by
            rcases List.mem_cons.mp hmem0 with h0 | h0
            · subst h0
              rw [hf] at hmiss0
              exact absurd hmiss0 (by simp)
            · exact h0
          have hm1 : findProduct
              (applyMaterialDeltas ((linksOf c r.productId).map
                (fun pm => (pm.materialId, -(pm.quantityUsed * (r.quantity : ℚ)))))
                (updateProductStock c r.productId (-r.quantity)))
              r0.productId tid = none := by
            have h1 := (catalog_applyMaterialDeltas ((linksOf c r.productId).map
                (fun pm => (pm.materialId, -(pm.quantityUsed * (r.quantity : ℚ)))))
                (updateProductStock c r.productId (-r.quantity)) r0.productId tid).2.2
            have h2 := (catalog_updateProductStock c r.productId (-r.quantity) r0.productId tid).2.2
            rw [hmiss0] at h2
            cases hcase : findProduct (updateProductStock c r.productId (-r.quantity)) r0.productId tid with
            | none => rw [h1, hcase]
            | some q =>
                rw [hcase] at h2
                simp at h2
          simp only [createLoop, txStep_noFail, deductMaterials_noFail, id_eq, if_true,
            Bool.not_true, Bool.false_eq_true, if_false, linksOf_updateProductStock, hf]
          exact ih _ _ _ _ _ ⟨r0, hne, hm1⟩

/-- C9: an error exit of the order unit of work or of the void unit of work
leaves the store exactly as it was — the unit rolled back, no partial stock
changes, rows or audit entries survive; and a missing or cross-tenant product
anywhere in the cart makes the whole order fail with the product-not-found
error of the first such item, with no side effects. -/
theorem c9_error_atomicity (oracle : Nat → Bool) (clock : Clock)
    (tid uid newId txId : Nat) (reason : String)
    (req : CreateTransactionRequest) (db : DB) :
    (∀ e, createTransaction oracle clock tid newId req db = .error e →
      createRun oracle clock tid newId req db = db) ∧
    (∀ e, voidTransaction oracle clock tid uid txId reason db = .error e →
      voidRun oracle clock tid uid txId reason db = db) ∧
    (validRequest req = true →
      (∃ r ∈ req.items, findProduct db r.productId tid = none) →
      ∃ pid, createTransaction noFail clock tid newId req db = .error (.productNotFound pid) ∧
        createRun noFail clock tid newId req db = db) := by
  refine ⟨fun e he => by simp [createRun, he], fun e he => by simp [voidRun, he],
    fun hv hmiss => ?_⟩
  obtain ⟨pid, hl⟩ := createLoop_missing tid req.items db (0 + 1) [] 0 0 hmiss
  have herr : createTransaction noFail clock tid newId req db = .error (.productNotFound pid) := by
    unfold createTransaction
    rw [hv]
    simp only [Bool.not_true, Bool.false_eq_true, if_false, if_true]
    rw [txStep_noFail2]
    simp only [id_eq, if_true]
    rw [hl]
  exact ⟨pid, herr, by simp [createRun, herr]⟩

/-- Witness for C9: on a store with no products and no users, an order for the
absent product 1 fails with product-not-found, and a void of the absent
transaction 55 fails after the user lookup; both leave the store unchanged. -/
theorem c9_error_atomicity_witness :
    createRun noFail { dateStr := "20260101", dayKey := "2026-01-01", unixNano := 1 } 4 50
      { items := [{ productId := 1, quantity := 1 }], discount := 0, tax := 0, paymentMethod := "" }
      { products := [], materials := [], productMaterials := [],
        transactions := [], auditLogs := [], users := [] }
      = { products := [], materials := [], productMaterials := [],
          transactions := [], auditLogs := [], users := [] } ∧
    voidRun noFail { dateStr := "20260101", dayKey := "2026-01-01", unixNano := 1 } 4 9 55 "alasan"
      { products := [], materials := [], productMaterials := [],
        transactions := [], auditLogs := [], users := [] }
      = { products := [], materials := [], productMaterials := [],
          transactions := [], auditLogs := [], users := [] } := by
  have h1 : createTransaction noFail { dateStr := "20260101", dayKey := "2026-01-01", unixNano := 1 } 4 50
      { items := [{ productId := 1, quantity := 1 }], discount := 0, tax := 0, paymentMethod := "" }
      { products := [], materials := [], productMaterials := [],
        transactions := [], auditLogs := [], users := [] }
      = .error (.productNotFound 1) := by
    norm_num [createTransaction, validRequest, createLoop, deductMaterials, txStep,
      findProduct, linksOf, updateProductStock, updateMaterialStock, genInvoiceNumber,
      nextOrderNumber, noFail, List.find?, List.filter]
  have h2 : voidTransaction noFail { dateStr := "20260101", dayKey := "2026-01-01", unixNano := 1 } 4 9 55 "alasan"
      { products := [], materials := [], productMaterials := [],
        transactions := [], auditLogs := [], users := [] }
      = .error .userNotFound := by
    norm_num [voidTransaction, findUser, List.find?]
    exact fun hx => absurd hx (by decide)
  exact ⟨(c9_error_atomicity noFail
      { dateStr := "20260101", dayKey := "2026-01-01", unixNano := 1 } 4 9 50 55 "alasan"
      { items := [{ productId := 1, quantity := 1 }], discount := 0, tax := 0, paymentMethod := "" }
      { products := [], materials := [], productMaterials := [],
        transactions := [], auditLogs := [], users := [] }).1 _ h1,
    (c9_error_atomicity noFail
      { dateStr := "20260101", dayKey := "2026-01-01", unixNano := 1 } 4 9 50 55 "alasan"
      { items := [{ productId := 1, quantity := 1 }], discount := 0, tax := 0, paymentMethod := "" }
      { products := [], materials := [], productMaterials := [],
        transactions := [], auditLogs := [], users := [] }).2.1 _ h2⟩

lemma itemProductDeltas_itemOf (db : DB) (tid : Nat) (rs : List TransactionItemRequest) :
    itemProductDeltas (rs.map (itemOf db tid)) =
      (reqProductDeltas rs).map (fun x => (x.fst, -x.snd)) := by
  unfold itemProductDeltas reqProductDeltas
  rw [List.map_map, List.map_map]
  apply List.map_congr_left
  intro r _
  simp [itemOf]

lemma itemMaterialDeltas_itemOf (db db2 : DB) (tid : Nat) (rs : List TransactionItemRequest)
    (hpm : db2.productMaterials = db.productMaterials) :
    itemMaterialDeltas db2 (rs.map (itemOf db tid)) =
      (reqMaterialDeltas db rs).map (fun x => (x.fst, -x.snd)) := by
  unfold itemMaterialDeltas reqMaterialDeltas
  rw [List.map_map, List.map_flatten, List.map_map]
  apply congrArg List.flatten
  apply List.map_congr_left
  intro r _
  have hl : linksOf db2 r.productId = linksOf db r.productId := by
    unfold linksOf
    rw [hpm]
  simp only [Function.comp, itemOf, hl, List.map_map]
  apply List.map_congr_left
  intro pm _
  simp

/-- C3: a successfully created order that is then successfully voided — with
the recipe links unchanged in between, which is automatic since the engine
never edits them — returns every product's stock_qty and every raw material's
stock_qty exactly to their pre-order values: create applies −quantity per item
and −(quantity_used × quantity) per link, void applies the exact opposites. -/
theorem c3_create_void_roundtrip (clock1 clock2 : Clock) (tid uid newId : Nat)
    (reason : String) (req : CreateTransactionRequest) (db db2 db3 : DB)
    (txn : Transaction) (log : TransactionAuditLog)
    (hc : createTransaction noFail clock1 tid newId req db = .ok (db2, txn))
    (hfind : findTransaction db2 newId tid = some txn)
    (hv : voidTransaction noFail clock2 tid uid newId reason db2 = .ok (db3, log)) :
    db3.products = db.products ∧ db3.materials = db.materials := by
  obtain ⟨-, hp2, hm2, hpm2, -, -, -, htxn, -⟩ :=
    createTransaction_noFail_ok clock1 tid newId req db db2 txn hc
  obtain ⟨user, txn2, -, ht2, -, -, hp3, hm3, -, -, -, -⟩ :=
    voidTransaction_noFail_ok clock2 tid uid newId reason db2 db3 log hv
  have htt : txn2 = txn := by
    rw [hfind] at ht2
    exact (Option.some.injEq _ _).mp ht2.symm
  subst htt
  have hitems : txn2.items = req.items.map (itemOf db tid) := by rw [htxn]
  constructor
  · rw [hp3, hitems, itemProductDeltas_itemOf]
    exact applyProductDeltas_cancel (reqProductDeltas req.items) db db2 hp2
  · rw [hm3, hitems, itemMaterialDeltas_itemOf db db2 tid req.items hpm2]
    exact applyMaterialDeltas_cancel (reqMaterialDeltas db req.items) db db2 hm2

/-- Witness for C3 (the spec's Scenario B): a material-driven product linked
to a material with stock 20 and quantity_used 2; ordering 4 units takes the
material to 12 and the product row to 96; the owner's void returns both to
20 and 100. -/
theorem c3_create_void_roundtrip_witness :
    ({ products := [{ id := 1, tenantId := 1, price := 5, taxRate := 0, stockQty := 100, useMaterialStock := true }], materials := [{ id := 7, stockQty := 20 }], productMaterials := [{ productId := 1, materialId := 7, quantityUsed := 2, conversionRate := 1 }], transactions := [{ id := 55, tenantId := 1, invoiceNumber := "INV-20261011-123", orderNumber := 1, items := [{ productId := 1, quantity := 4, unitPrice := 5, subtotal := 20 }], subtotal := 20, discount := 0, tax := 0, total := 20, status := "voided", paymentMethod := "cash", createdAt := 10123, createdDay := "2026-10-11" }], auditLogs := [{ tenantId := 1, transactionId := 55, action := "void", reason := "batal", oldValues := { status := "completed", total := 20, subtotal := 20, discount := 0, tax := 0, items := [{ productId := 1, quantity := 4, unitPrice := 5, subtotal := 20 }] }, newStatus := "voided", userId := 9 }], users := [{ id := 9, role := "owner" }] } : DB).products = ({ products := [{ id := 1, tenantId := 1, price := 5, taxRate := 0, stockQty := 100, useMaterialStock := true }], materials := [{ id := 7, stockQty := 20 }], productMaterials := [{ productId := 1, materialId := 7, quantityUsed := 2, conversionRate := 1 }], transactions := [], auditLogs := [], users := [{ id := 9, role := "owner" }] } : DB).products ∧
    ({ products := [{ id := 1, tenantId := 1, price := 5, taxRate := 0, stockQty := 100, useMaterialStock := true }], materials := [{ id := 7, stockQty := 20 }], productMaterials := [{ productId := 1, materialId := 7, quantityUsed := 2, conversionRate := 1 }], transactions := [{ id := 55, tenantId := 1, invoiceNumber := "INV-20261011-123", orderNumber := 1, items := [{ productId := 1, quantity := 4, unitPrice := 5, subtotal := 20 }], subtotal := 20, discount := 0, tax := 0, total := 20, status := "voided", paymentMethod := "cash", createdAt := 10123, createdDay := "2026-10-11" }], auditLogs := [{ tenantId := 1, transactionId := 55, action := "void", reason := "batal", oldValues := { status := "completed", total := 20, subtotal := 20, discount := 0, tax := 0, items := [{ productId := 1, quantity := 4, unitPrice := 5, subtotal := 20 }] }, newStatus := "voided", userId := 9 }], users := [{ id := 9, role := "owner" }] } : DB).materials = ({ products := [{ id := 1, tenantId := 1, price := 5, taxRate := 0, stockQty := 100, useMaterialStock := true }], materials := [{ id := 7, stockQty := 20 }], productMaterials := [{ productId := 1, materialId := 7, quantityUsed := 2, conversionRate := 1 }], transactions := [], auditLogs := [], users := [{ id := 9, role := "owner" }] } : DB).materials := by
  have hc : createTransaction noFail { dateStr := "20261011", dayKey := "2026-10-11", unixNano := 10123 } 1 55 { items := [{ productId := 1, quantity := 4 }], discount := 0, tax := 0, paymentMethod := "" } { products := [{ id := 1, tenantId := 1, price := 5, taxRate := 0, stockQty := 100, useMaterialStock := true }], materials := [{ id := 7, stockQty := 20 }], productMaterials := [{ productId := 1, materialId := 7, quantityUsed := 2, conversionRate := 1 }], transactions := [], auditLogs := [], users := [{ id := 9, role := "owner" }] } = .ok ({ products := [{ id := 1, tenantId := 1, price := 5, taxRate := 0, stockQty := 96, useMaterialStock := true }], materials := [{ id := 7, stockQty := 12 }], productMaterials := [{ productId := 1, materialId := 7, quantityUsed := 2, conversionRate := 1 }], transactions := [{ id := 55, tenantId := 1, invoiceNumber := "INV-20261011-123", orderNumber := 1, items := [{ productId := 1, quantity := 4, unitPrice := 5, subtotal := 20 }], subtotal := 20, discount := 0, tax := 0, total := 20, status := "completed", paymentMethod := "cash", createdAt := 10123, createdDay := "2026-10-11" }], auditLogs := [], users := [{ id := 9, role := "owner" }] }, { id := 55, tenantId := 1, invoiceNumber := "INV-20261011-123", orderNumber := 1, items := [{ productId := 1, quantity := 4, unitPrice := 5, subtotal := 20 }], subtotal := 20, discount := 0, tax := 0, total := 20, status := "completed", paymentMethod := "cash", createdAt := 10123, createdDay := "2026-10-11" }) := by
    norm_num [createTransaction, validRequest, createLoop, deductMaterials, txStep,
      findProduct, linksOf, updateProductStock, updateMaterialStock, genInvoiceNumber,
      nextOrderNumber, noFail, List.find?, List.filter]
    decide
  have hv : voidTransaction noFail { dateStr := "20261011", dayKey := "2026-10-11", unixNano := 20123 } 1 9 55 "batal" { products := [{ id := 1, tenantId := 1, price := 5, taxRate := 0, stockQty := 96, useMaterialStock := true }], materials := [{ id := 7, stockQty := 12 }], productMaterials := [{ productId := 1, materialId := 7, quantityUsed := 2, conversionRate := 1 }], transactions := [{ id := 55, tenantId := 1, invoiceNumber := "INV-20261011-123", orderNumber := 1, items := [{ productId := 1, quantity := 4, unitPrice := 5, subtotal := 20 }], subtotal := 20, discount := 0, tax := 0, total := 20, status := "completed", paymentMethod := "cash", createdAt := 10123, createdDay := "2026-10-11" }], auditLogs := [], users := [{ id := 9, role := "owner" }] } = .ok ({ products := [{ id := 1, tenantId := 1, price := 5, taxRate := 0, stockQty := 100, useMaterialStock := true }], materials := [{ id := 7, stockQty := 20 }], productMaterials := [{ productId := 1, materialId := 7, quantityUsed := 2, conversionRate := 1 }], transactions := [{ id := 55, tenantId := 1, invoiceNumber := "INV-20261011-123", orderNumber := 1, items := [{ productId := 1, quantity := 4, unitPrice := 5, subtotal := 20 }], subtotal := 20, discount := 0, tax := 0, total := 20, status := "voided", paymentMethod := "cash", createdAt := 10123, createdDay := "2026-10-11" }], auditLogs := [{ tenantId := 1, transactionId := 55, action := "void", reason := "batal", oldValues := { status := "completed", total := 20, subtotal := 20, discount := 0, tax := 0, items := [{ productId := 1, quantity := 4, unitPrice := 5, subtotal := 20 }] }, newStatus := "voided", userId := 9 }], users := [{ id := 9, role := "owner" }] }, { tenantId := 1, transactionId := 55, action := "void", reason := "batal", oldValues := { status := "completed", total := 20, subtotal := 20, discount := 0, tax := 0, items := [{ productId := 1, quantity := 4, unitPrice := 5, subtotal := 20 }] }, newStatus := "voided", userId := 9 }) := by
    norm_num [voidTransaction, findUser, findTransaction, setVoided, restoreItems, txStep,
      updateProductStock, updateMaterialStock, linksOf, noFail, List.find?, List.filter, List.foldl]
    rw [if_neg (by decide), if_neg (by decide)]
  exact c3_create_void_roundtrip { dateStr := "20261011", dayKey := "2026-10-11", unixNano := 10123 } { dateStr := "20261011", dayKey := "2026-10-11", unixNano := 20123 } 1 9 55 "batal"
    { items := [{ productId := 1, quantity := 4 }], discount := 0, tax := 0, paymentMethod := "" } { products := [{ id := 1, tenantId := 1, price := 5, taxRate := 0, stockQty := 100, useMaterialStock := true }], materials := [{ id := 7, stockQty := 20 }], productMaterials := [{ productId := 1, materialId := 7, quantityUsed := 2, conversionRate := 1 }], transactions := [], auditLogs := [], users := [{ id := 9, role := "owner" }] } { products := [{ id := 1, tenantId := 1, price := 5, taxRate := 0, stockQty := 96, useMaterialStock := true }], materials := [{ id := 7, stockQty := 12 }], productMaterials := [{ productId := 1, materialId := 7, quantityUsed := 2, conversionRate := 1 }], transactions := [{ id := 55, tenantId := 1, invoiceNumber := "INV-20261011-123", orderNumber := 1, items := [{ productId := 1, quantity := 4, unitPrice := 5, subtotal := 20 }], subtotal := 20, discount := 0, tax := 0, total := 20, status := "completed", paymentMethod := "cash", createdAt := 10123, createdDay := "2026-10-11" }], auditLogs := [], users := [{ id := 9, role := "owner" }] } { products := [{ id := 1, tenantId := 1, price := 5, taxRate := 0, stockQty := 100, useMaterialStock := true }], materials := [{ id := 7, stockQty := 20 }], productMaterials := [{ productId := 1, materialId := 7, quantityUsed := 2, conversionRate := 1 }], transactions := [{ id := 55, tenantId := 1, invoiceNumber := "INV-20261011-123", orderNumber := 1, items := [{ productId := 1, quantity := 4, unitPrice := 5, subtotal := 20 }], subtotal := 20, discount := 0, tax := 0, total := 20, status := "voided", paymentMethod := "cash", createdAt := 10123, createdDay := "2026-10-11" }], auditLogs := [{ tenantId := 1, transactionId := 55, action := "void", reason := "batal", oldValues := { status := "completed", total := 20, subtotal := 20, discount := 0, tax := 0, items := [{ productId := 1, quantity := 4, unitPrice := 5, subtotal := 20 }] }, newStatus := "voided", userId := 9 }], users := [{ id := 9, role := "owner" }] } { id := 55, tenantId := 1, invoiceNumber := "INV-20261011-123", orderNumber := 1, items := [{ productId := 1, quantity := 4, unitPrice := 5, subtotal := 20 }], subtotal := 20, discount := 0, tax := 0, total := 20, status := "completed", paymentMethod := "cash", createdAt := 10123, createdDay := "2026-10-11" } { tenantId := 1, transactionId := 55, action := "void", reason := "batal", oldValues := { status := "completed", total := 20, subtotal := 20, discount := 0, tax := 0, items := [{ productId := 1, quantity := 4, unitPrice := 5, subtotal := 20 }] }, newStatus := "voided", userId := 9 } hc (by rfl) hv

end Warungin
